import Mathlib

/-!
Verification of the Pod Security Standards (PSS) compliance analyzer
(`src/tools/pss_helper.py`).

The Python program operates on generic parsed-YAML values (nested dicts,
lists, scalars).  We embed those values as the inductive type `Yaml`
(string-keyed mappings, which is the shape every analyzed manifest uses),
and embed the Python primitive operations the program relies on
(`dict.get`, the `or` default idiom, truthiness, iteration, `in`,
`str.lower`, f-string formatting) as Lean functions.  Operations that can
raise in Python (`.get` on a non-dict, iterating a non-iterable, `in`
against a non-container) return `Except PyErr`, so the embedded functions
are total and every raising path of the source is an explicit `error`
value.

YAML parsing itself (`yaml.safe_load_all`) is an external collaborator of
the analyzer, so the analyzer is embedded over an already-parsed list of
documents.
-/

/-- A parsed YAML value, as produced by `yaml.safe_load_all` for the
manifests this tool analyzes: scalars, sequences, and string-keyed
mappings (assoc lists in document order, keys unique). -/
inductive Yaml where
  | null : Yaml
  | bool (b : Bool) : Yaml
  | int (n : Int) : Yaml
  | str (s : String) : Yaml
  | seq (xs : List Yaml) : Yaml
  | map (kvs : List (String × Yaml)) : Yaml

/-- Python exception kinds the embedded code can raise. -/
inductive PyErr where
  | attributeError : PyErr
  | typeError : PyErr
deriving DecidableEq, Repr

/-- Python truthiness (`bool(v)`): `None`, `False`, `0`, `""`, `[]`, `{}`
are falsy, everything else is truthy. -/
def Yaml.truthy : Yaml → Bool
  | Yaml.null => false
  | Yaml.bool b => b
  | Yaml.int n => !(n == 0)
  | Yaml.str s => !(s == "")
  | Yaml.seq xs => !xs.isEmpty
  | Yaml.map kvs => !kvs.isEmpty

/-- First value bound to key `k` in an assoc list (Python dict lookup). -/
def lookupY (kvs : List (String × Yaml)) (k : String) : Option Yaml :=
  match kvs.find? (fun kv => kv.1 == k) with
  | some kv => some kv.2
  | none => none

/-- `dict.get(k, d)`: the stored value when the key is present (even when
that value is `None`), the default otherwise. -/
def lookupD (kvs : List (String × Yaml)) (k : String) (d : Yaml) : Yaml :=
  (lookupY kvs k).getD d

/-- Python `v.get(k, d)`: dict lookup with default; raises
`AttributeError` when `v` is not a dict. -/
def pyGet (v : Yaml) (k : String) (d : Yaml) : Except PyErr Yaml :=
  match v with
  | Yaml.map kvs => Except.ok (lookupD kvs k d)
  | _ => Except.error PyErr.attributeError

/-- Python `a or b`: `a` when truthy, else `b`. -/
def pyOr (a b : Yaml) : Yaml :=
  if a.truthy then a else b

/-- `str.lower()` on ASCII text (all kind strings here are ASCII), spelled
character-wise so it computes by kernel reduction. -/
def strLower (s : String) : String := ⟨s.data.map Char.toLower⟩

/-- `str.upper()` on ASCII text (profiles are ASCII), character-wise. -/
def strUpper (s : String) : String := ⟨s.data.map Char.toUpper⟩

/-- Python `v.lower()`: defined on `str` only, `AttributeError` otherwise. -/
def pyLower (v : Yaml) : Except PyErr String :=
  match v with
  | Yaml.str s => Except.ok (strLower s)
  | _ => Except.error PyErr.attributeError

/-- Python iteration (`for x in v` / `enumerate(v)`): lists yield their
elements, strings yield their characters as 1-character strings, dicts
yield their keys; `None`, booleans and ints raise `TypeError`. -/
def pyIter (v : Yaml) : Except PyErr (List Yaml) :=
  match v with
  | Yaml.seq xs => Except.ok xs
  | Yaml.str s => Except.ok (s.toList.map (fun ch => Yaml.str (String.singleton ch)))
  | Yaml.map kvs => Except.ok (kvs.map (fun kv => Yaml.str kv.1))
  | _ => Except.error PyErr.typeError

/-- Python `v == t` for a string literal `t`: only an equal `str` compares
equal (no other YAML scalar equals a string in Python). -/
def yamlEqStr (v : Yaml) (t : String) : Bool :=
  match v with
  | Yaml.str s => s == t
  | _ => false

/-- `needle in hay` for strings: substring containment. -/
def strContainsSub (needle hay : String) : Bool :=
  (List.range (hay.length + 1)).any (fun k => needle.toList.isPrefixOf (hay.toList.drop k))

/-- Python `t in v` for a string literal `t`: key containment for dicts,
membership for lists, substring test for strings; `TypeError` for `None`,
booleans and ints. -/
def pyContains (t : String) (v : Yaml) : Except PyErr Bool :=
  match v with
  | Yaml.map kvs => Except.ok (kvs.any (fun kv => kv.1 == t))
  | Yaml.seq xs => Except.ok (xs.any (fun x => yamlEqStr x t))
  | Yaml.str s => Except.ok (strContainsSub t s)
  | _ => Except.error PyErr.typeError

/-- Python `v in (None, 0)` (membership by `==`): `None`, `0`, and `False`
(since `False == 0` in Python) are members. -/
def pyInNoneZero (v : Yaml) : Bool :=
  match v with
  | Yaml.null => true
  | Yaml.int n => n == 0
  | Yaml.bool b => !b
  | _ => false

/-- Python `v is True`: identity with the `True` singleton (so `1 is True`
is false). -/
def isTrueLiteral (v : Yaml) : Bool :=
  match v with
  | Yaml.bool b => b
  | _ => false

/-- A single-quote character, used by Python `repr` of strings. -/
def squote : String := String.singleton (Char.ofNat 39)

mutual

/-- Python `repr(v)` for parsed-YAML values (string escaping is not
modeled; the strings this program formats contain no quotes or
backslashes). -/
def pyRepr : Yaml → String
  | Yaml.null => "None"
  | Yaml.bool true => "True"
  | Yaml.bool false => "False"
  | Yaml.int n => toString n
  | Yaml.str s => squote ++ s ++ squote
  | Yaml.seq xs => "[" ++ pyReprSeq xs ++ "]"
  | Yaml.map kvs => "\x7b" ++ pyReprMap kvs ++ "\x7d"

/-- Comma-separated `repr`s of list elements. -/
def pyReprSeq : List Yaml → String
  | [] => ""
  | [x] => pyRepr x
  | x :: y :: xs => pyRepr x ++ ", " ++ pyReprSeq (y :: xs)

/-- Comma-separated `repr`s of dict entries. -/
def pyReprMap : List (String × Yaml) → String
  | [] => ""
  | [kv] => squote ++ kv.1 ++ squote ++ ": " ++ pyRepr kv.2
  | kv :: kv2 :: kvs => squote ++ kv.1 ++ squote ++ ": " ++ pyRepr kv.2 ++ ", " ++ pyReprMap (kv2 :: kvs)

end

/-- Python `str(v)` (as used by f-string interpolation): the string itself
for `str`, `repr`-like rendering otherwise. -/
def pyStr : Yaml → String
  | Yaml.str s => s
  | v => pyRepr v

/-- An Issue as the Python code builds it: a dict with string keys, in
insertion order. -/
abbrev PyDict := List (String × Yaml)

/-- Dict lookup on an issue (`d.get(k)` / `d[k]` as an observer). -/
def dget (d : PyDict) (k : String) : Option Yaml :=
  match d.find? (fun kv => kv.1 == k) with
  | some kv => some kv.2
  | none => none

/-- Python `dict.setdefault(k, v)`: inserts `k ↦ v` at the end when `k` is
absent, leaves the dict unchanged otherwise. -/
def setdefault (d : PyDict) (k : String) (v : Yaml) : PyDict :=
  if (d.find? (fun kv => kv.1 == k)).isSome then d else d ++ [(k, v)]

/-! ## The rule set (`_check_pod_spec`) -/

/-- Issue emitted for a true `hostNetwork`/`hostPID`/`hostIPC` flag
(source lines 12–22). -/
def hostFieldIssue (profile field : String) : PyDict :=
  [("id", Yaml.str ("PSS-" ++ strUpper profile ++ "-" ++ field)),
   ("level", Yaml.str "error"),
   ("path", Yaml.str ("spec." ++ field)),
   ("message", Yaml.str (field ++ "=true is not allowed under " ++ profile ++ " profile.")),
   ("recommendedPatch", Yaml.str ("spec:\n  " ++ field ++ ": false\n"))]

/-- Issue emitted for a `hostPath` volume (source lines 25–35). -/
def hostPathIssue (profile : String) (i : Nat) : PyDict :=
  [("id", Yaml.str ("PSS-" ++ strUpper profile ++ "-hostPath")),
   ("level", Yaml.str "error"),
   ("path", Yaml.str ("spec.volumes[" ++ toString i ++ "].hostPath")),
   ("message", Yaml.str "hostPath volumes are disallowed under baseline/restricted."),
   ("recommendedPatch", Yaml.str "# Replace hostPath with PVC / ConfigMap / Secret / emptyDir, etc.\n")]

/-- `base_path` of container `i` (source line 41). -/
def basePath (i : Nat) : String :=
  "spec.containers[" ++ toString i ++ "].securityContext"

/-- Issue emitted for a privileged container (source lines 44–53). -/
def privilegedIssue (bp : String) (name : Yaml) : PyDict :=
  [("id", Yaml.str "PSS-PRIVILEGED"),
   ("level", Yaml.str "error"),
   ("path", Yaml.str (bp ++ ".privileged")),
   ("message", Yaml.str ("Container " ++ pyStr name ++ " runs privileged. Not allowed in baseline/restricted.")),
   ("recommendedPatch", Yaml.str (bp ++ ":\n  privileged: false\n"))]

/-- Issue emitted when privilege escalation is not disabled (source lines
56–65). -/
def apeIssue (bp : String) (name : Yaml) : PyDict :=
  [("id", Yaml.str "PSS-ALLOW_PRIV_ESC"),
   ("level", Yaml.str "error"),
   ("path", Yaml.str (bp ++ ".allowPrivilegeEscalation")),
   ("message", Yaml.str ("Container " ++ pyStr name ++ " allows privilege escalation.")),
   ("recommendedPatch", Yaml.str (bp ++ ":\n  allowPrivilegeEscalation: false\n"))]

/-- Issue emitted by the restricted-profile non-root rule (source lines
68–84). -/
def nonRootIssue (bp : String) (name : Yaml) : PyDict :=
  [("id", Yaml.str "PSS-RESTRICTED-RUN_AS_NON_ROOT"),
   ("level", Yaml.str "error"),
   ("path", Yaml.str bp),
   ("message", Yaml.str ("Container " ++ pyStr name ++ " must be configured to run as non-root under restricted profile.")),
   ("recommendedPatch", Yaml.str (bp ++ ":\n  runAsNonRoot: true\n  runAsUser: 1000\n"))]

/-- Issue emitted by the restricted-profile capability rule (source lines
89–104). -/
def capsIssue (bp : String) (name : Yaml) (forbidden : List Yaml) : PyDict :=
  [("id", Yaml.str "PSS-RESTRICTED-CAPS"),
   ("level", Yaml.str "error"),
   ("path", Yaml.str (bp ++ ".capabilities.add")),
   ("message", Yaml.str ("Container " ++ pyStr name ++ " adds capabilities " ++ pyStr (Yaml.seq forbidden) ++ " which violate restricted profile.")),
   ("recommendedPatch", Yaml.str (bp ++ ":\n  capabilities:\n    drop: [\"ALL\"]\n    # Optional: add NET_BIND_SERVICE only if needed\n    # add: [\"NET_BIND_SERVICE\"]\n"))]

/-- Body of the per-container loop of `_check_pod_spec` (source lines
38–104): resolve `securityContext` (`or {}`), the container name, then run
the privileged, privilege-escalation, non-root (restricted only) and
capability checks; the capability collection runs for both profiles, only
the emission is restricted-gated. -/
def containerIssues (profile : String) (i : Nat) (c : Yaml) : Except PyErr (List PyDict) := do
  let scv ← pyGet c "securityContext" Yaml.null
  let sc := pyOr scv (Yaml.map [])
  let namev ← pyGet c "name" (Yaml.str ("containers[" ++ toString i ++ "]"))
  let privv ← pyGet sc "privileged" (Yaml.bool false)
  let apev ← pyGet sc "allowPrivilegeEscalation" (Yaml.bool true)
  let nrIssues ←
    if profile == "restricted" then do
      let rnr ← pyGet sc "runAsNonRoot" Yaml.null
      let rau ← pyGet sc "runAsUser" Yaml.null
      pure (if !isTrueLiteral rnr && pyInNoneZero rau then
              [nonRootIssue (basePath i) namev]
            else [])
    else pure []
  let capsv ← pyGet sc "capabilities" Yaml.null
  let addv ← pyGet (pyOr capsv (Yaml.map [])) "add" Yaml.null
  let capsList ← pyIter (pyOr addv (Yaml.seq []))
  let forbidden := capsList.filter (fun cap => !yamlEqStr cap "NET_BIND_SERVICE")
  pure ((if privv.truthy then [privilegedIssue (basePath i) namev] else []) ++
        (if apev.truthy then [apeIssue (basePath i) namev] else []) ++
        nrIssues ++
        (if !forbidden.isEmpty && profile == "restricted" then
           [capsIssue (basePath i) namev forbidden]
         else []))

/-- Body of the per-volume loop of `_check_pod_spec` (source lines
25–35). -/
def volumeIssues (profile : String) (i : Nat) (vol : Yaml) : Except PyErr (List PyDict) := do
  let b ← pyContains "hostPath" vol
  pure (if b then [hostPathIssue profile i] else [])

/-- The indexed `for i, vol in enumerate(...)` loop over volumes. -/
def volLoop (profile : String) : Nat → List Yaml → Except PyErr (List PyDict)
  | _, [] => pure []
  | i, v :: vs => do
    let is1 ← volumeIssues profile i v
    let rest ← volLoop profile (i + 1) vs
    pure (is1 ++ rest)

/-- The indexed `for i, c in enumerate(...)` loop over containers. -/
def conLoop (profile : String) : Nat → List Yaml → Except PyErr (List PyDict)
  | _, [] => pure []
  | i, c :: cs => do
    let is1 ← containerIssues profile i c
    let rest ← conLoop profile (i + 1) cs
    pure (is1 ++ rest)

/-- The host-namespace flag loop of `_check_pod_spec` (source lines
12–22). -/
def hostFlagIssues (pod_spec : Yaml) (profile : String) : Except PyErr (List PyDict) := do
  let hn ← pyGet pod_spec "hostNetwork" (Yaml.bool false)
  let hp ← pyGet pod_spec "hostPID" (Yaml.bool false)
  let hi ← pyGet pod_spec "hostIPC" (Yaml.bool false)
  pure ((if hn.truthy then [hostFieldIssue profile "hostNetwork"] else []) ++
        (if hp.truthy then [hostFieldIssue profile "hostPID"] else []) ++
        (if hi.truthy then [hostFieldIssue profile "hostIPC"] else []))

/-- `_check_pod_spec(pod_spec, profile)` (source lines 8–106): host flags,
then hostPath volumes, then the per-container checks, in order. -/
def _check_pod_spec (pod_spec : Yaml) (profile : String) : Except PyErr (List PyDict) := do
  let hostIs ← hostFlagIssues pod_spec profile
  let volsv ← pyGet pod_spec "volumes" (Yaml.seq [])
  let vols ← pyIter volsv
  let volIs ← volLoop profile 0 vols
  let consv ← pyGet pod_spec "containers" (Yaml.seq [])
  let cons ← pyIter consv
  let conIs ← conLoop profile 0 cons
  pure (hostIs ++ volIs ++ conIs)

/-! ## The extractor (`_extract_pod_spec`) -/

/-- `_extract_pod_spec(doc)` (source lines 109–123): dispatch on the
lower-cased `kind`, traversing `spec`, `spec.template.spec`, or
`spec.jobTemplate.spec.template.spec`, with `spec` as the fallback. -/
def _extract_pod_spec (doc : Yaml) : Except PyErr Yaml := do
  let kv ← pyGet doc "kind" Yaml.null
  let kind ← pyLower (pyOr kv (Yaml.str ""))
  let sv ← pyGet doc "spec" Yaml.null
  if kind == "pod" then
    pure (pyOr sv (Yaml.map []))
  else if kind == "deployment" || kind == "replicaset" || kind == "statefulset" || kind == "daemonset" then do
    let t ← pyGet (pyOr sv (Yaml.map [])) "template" (Yaml.map [])
    let s ← pyGet t "spec" (Yaml.map [])
    pure (pyOr s (Yaml.map []))
  else if kind == "job" then do
    let t ← pyGet (pyOr sv (Yaml.map [])) "template" (Yaml.map [])
    let s ← pyGet t "spec" (Yaml.map [])
    pure (pyOr s (Yaml.map []))
  else if kind == "cronjob" then do
    let jt ← pyGet (pyOr sv (Yaml.map [])) "jobTemplate" (Yaml.map [])
    let s1 ← pyGet jt "spec" (Yaml.map [])
    let t ← pyGet s1 "template" (Yaml.map [])
    let s2 ← pyGet t "spec" (Yaml.map [])
    pure (pyOr s2 (Yaml.map []))
  else
    pure (pyOr sv (Yaml.map []))

/-! ## The analyzer (`analyze_manifest_for_pss`) -/

/-- The aggregated report (source lines 158–162). -/
structure AnalysisResult where
  profile : String
  issueCount : Nat
  issues : List PyDict

/-- The three `setdefault` stamps applied to each produced issue (source
lines 151–154): note the third key is `namespace`. -/
def stampIssue (kind name namespc : Yaml) (issue : PyDict) : PyDict :=
  setdefault (setdefault (setdefault issue "resourceKind" kind) "resourceName" name) "namespace" namespc

/-- Body of the per-document loop of `analyze_manifest_for_pss` (source
lines 142–156): resolve the document identity, extract the pod spec, run
the rules, stamp each issue. -/
def docIssues (doc : Yaml) (profile : String) : Except PyErr (List PyDict) := do
  let metav ← pyGet doc "metadata" Yaml.null
  let namev ← pyGet (pyOr metav (Yaml.map [])) "name" Yaml.null
  let nsv ← pyGet (pyOr metav (Yaml.map [])) "namespace" Yaml.null
  let kindv ← pyGet doc "kind" Yaml.null
  let pod_spec ← _extract_pod_spec doc
  let issues ← _check_pod_spec pod_spec profile
  pure (issues.map (stampIssue kindv namev nsv))

/-- The document loop, accumulating `all_issues` in document order. -/
def docsLoop (profile : String) : List Yaml → Except PyErr (List PyDict)
  | [] => pure []
  | d :: ds => do
    let is1 ← docIssues d profile
    let rest ← docsLoop profile ds
    pure (is1 ++ rest)

/-- The analyzer over already-parsed documents (source lines 139–162):
falsy documents are skipped, the rest are analyzed in order, and the
report is assembled.  YAML parsing (`yaml.safe_load_all`) is the external
parser collaborator, so the embedding starts from the parsed stream. -/
def analyzeDocs (docs : List Yaml) (profile : String) : Except PyErr AnalysisResult := do
  let all ← docsLoop profile (docs.filter Yaml.truthy)
  pure { profile := profile, issueCount := all.length, issues := all }

/-- Errors observable at the tool boundary. -/
inductive ToolError where
  | invalidProfile : ToolError
  | py (e : PyErr) : ToolError
deriving DecidableEq, Repr

/-- `analyze_manifest_for_pss` as invoked through its declared interface
(source lines 126–130): the `@tool` decorator exposes the function with
the parameter annotation `profile: Literal["baseline", "restricted"]`,
which the FastMCP tool layer validates against the call arguments before
the function body runs, so any other profile string is rejected as a
caller error with no document processed. -/
def analyze_manifest_for_pss (docs : List Yaml) (profile : String) : Except ToolError AnalysisResult :=
  if profile == "baseline" || profile == "restricted" then
    match analyzeDocs docs profile with
    | Except.ok r => Except.ok r
    | Except.error e => Except.error (ToolError.py e)
  else
    Except.error ToolError.invalidProfile

/-! ## Basic lemmas about the embedded primitives -/

theorem exceptBind_ok {α β : Type} (a : α) (f : α → Except PyErr β) :
    (Except.ok a >>= f) = f a := rfl

theorem exceptBind_err {α β : Type} (e : PyErr) (f : α → Except PyErr β) :
    ((Except.error e : Except PyErr α) >>= f) = Except.error e := rfl

theorem exceptPure_bind {α β : Type} (a : α) (f : α → Except PyErr β) :
    ((pure a : Except PyErr α) >>= f) = f a := rfl

theorem pyGet_map (kvs : List (String × Yaml)) (k : String) (d : Yaml) :
    pyGet (Yaml.map kvs) k d = Except.ok (lookupD kvs k d) := rfl

theorem dget_append (d1 d2 : PyDict) (k : String) :
    dget (d1 ++ d2) k = ((dget d1 k).or (dget d2 k)) := by
  unfold dget
  rw [List.find?_append]
  cases d1.find? (fun kv => kv.1 == k) <;> cases d2.find? (fun kv => kv.1 == k) <;> rfl

theorem dget_setdefault_ne (d : PyDict) (k2 k : String) (v : Yaml)
    (hne : (k2 == k) = false) : dget (setdefault d k2 v) k = dget d k := by
  unfold setdefault
  split
  · rfl
  · rw [dget_append]
    have h2 : dget [(k2, v)] k = none := by
      unfold dget
      simp [List.find?, hne]
    rw [h2]
    cases dget d k <;> rfl

theorem dget_setdefault_absent (d : PyDict) (k : String) (v : Yaml)
    (h : dget d k = none) : setdefault d k v = d ++ [(k, v)] := by
  unfold setdefault
  unfold dget at h
  split
  · rename_i hs
    rcases Option.isSome_iff_exists.mp hs with ⟨kv, hkv⟩
    rw [hkv] at h
    cases h
  · rfl

theorem dget_none_iff (d : PyDict) (k : String) :
    dget d k = none ↔ d.find? (fun kv => kv.1 == k) = none := by
  unfold dget
  cases d.find? (fun kv => kv.1 == k) <;> simp

/-- Name the container takes in messages (`c.get("name", f"containers[{i}]")`). -/
def nameOf (i : Nat) (ckvs : List (String × Yaml)) : Yaml :=
  lookupD ckvs "name" (Yaml.str ("containers[" ++ toString i ++ "]"))

/-- What `containerIssues` computes once the container is a dict and its
`securityContext` has resolved to the dict `sckvs`. -/
theorem containerIssues_map (profile : String) (i : Nat) (ckvs sckvs : List (String × Yaml))
    (hsc : pyOr (lookupD ckvs "securityContext" Yaml.null) (Yaml.map []) = Yaml.map sckvs) :
    containerIssues profile i (Yaml.map ckvs) =
      (do
        let addv ← pyGet (pyOr (lookupD sckvs "capabilities" Yaml.null) (Yaml.map [])) "add" Yaml.null
        let capsList ← pyIter (pyOr addv (Yaml.seq []))
        let forbidden := capsList.filter (fun cap => !yamlEqStr cap "NET_BIND_SERVICE")
        pure ((if (lookupD sckvs "privileged" (Yaml.bool false)).truthy then
                 [privilegedIssue (basePath i) (nameOf i ckvs)] else []) ++
              (if (lookupD sckvs "allowPrivilegeEscalation" (Yaml.bool true)).truthy then
                 [apeIssue (basePath i) (nameOf i ckvs)] else []) ++
              (if profile == "restricted" then
                 (if !isTrueLiteral (lookupD sckvs "runAsNonRoot" Yaml.null) &&
                     pyInNoneZero (lookupD sckvs "runAsUser" Yaml.null) then
                    [nonRootIssue (basePath i) (nameOf i ckvs)] else [])
               else []) ++
              (if !forbidden.isEmpty && profile == "restricted" then
                 [capsIssue (basePath i) (nameOf i ckvs) forbidden] else []))) := by
  unfold containerIssues
  rw [pyGet_map, exceptBind_ok, hsc, pyGet_map, exceptBind_ok, pyGet_map, exceptBind_ok,
    pyGet_map, exceptBind_ok]
  cases hpr : (profile == "restricted") with
  | true =>
    rw [if_pos rfl, pyGet_map, exceptBind_ok, pyGet_map, exceptBind_ok]
    rfl
  | false =>
    rw [if_neg (by simp)]
    rfl

/-! ## Issue-shape predicates -/

/-- Does the issue carry id `PSS-ALLOW_PRIV_ESC`? -/
def apeKeep (d : PyDict) : Bool :=
  match dget d "id" with
  | some (Yaml.str s) => s == "PSS-ALLOW_PRIV_ESC"
  | _ => false

/-- Does the issue carry id `PSS-RESTRICTED-RUN_AS_NON_ROOT`? -/
def nrKeep (d : PyDict) : Bool :=
  match dget d "id" with
  | some (Yaml.str s) => s == "PSS-RESTRICTED-RUN_AS_NON_ROOT"
  | _ => false

/-- Does the issue carry id `PSS-RESTRICTED-CAPS`? -/
def capsKeep (d : PyDict) : Bool :=
  match dget d "id" with
  | some (Yaml.str s) => s == "PSS-RESTRICTED-CAPS"
  | _ => false

/-- The issue has a string id that does not start with `PSS-RESTRICTED-`. -/
def issueIdSafe (d : PyDict) : Bool :=
  match dget d "id" with
  | some (Yaml.str s) => !(List.isPrefixOf "PSS-RESTRICTED-".data s.data)
  | _ => false

/-- None of the four stamping-related keys is present on the issue. -/
def stampKeysAbsent (d : PyDict) : Bool :=
  (dget d "resourceKind").isNone && (dget d "resourceName").isNone &&
  (dget d "namespace").isNone && (dget d "resourceNamespace").isNone

theorem apeKeep_privilegedIssue (bp : String) (nm : Yaml) :
    apeKeep (privilegedIssue bp nm) = false := rfl
theorem apeKeep_apeIssue (bp : String) (nm : Yaml) :
    apeKeep (apeIssue bp nm) = true := rfl
theorem apeKeep_nonRootIssue (bp : String) (nm : Yaml) :
    apeKeep (nonRootIssue bp nm) = false := rfl
theorem apeKeep_capsIssue (bp : String) (nm : Yaml) (f : List Yaml) :
    apeKeep (capsIssue bp nm f) = false := rfl

theorem nrKeep_privilegedIssue (bp : String) (nm : Yaml) :
    nrKeep (privilegedIssue bp nm) = false := rfl
theorem nrKeep_apeIssue (bp : String) (nm : Yaml) :
    nrKeep (apeIssue bp nm) = false := rfl
theorem nrKeep_nonRootIssue (bp : String) (nm : Yaml) :
    nrKeep (nonRootIssue bp nm) = true := rfl
theorem nrKeep_capsIssue (bp : String) (nm : Yaml) (f : List Yaml) :
    nrKeep (capsIssue bp nm f) = false := rfl

theorem capsKeep_privilegedIssue (bp : String) (nm : Yaml) :
    capsKeep (privilegedIssue bp nm) = false := rfl
theorem capsKeep_apeIssue (bp : String) (nm : Yaml) :
    capsKeep (apeIssue bp nm) = false := rfl
theorem capsKeep_nonRootIssue (bp : String) (nm : Yaml) :
    capsKeep (nonRootIssue bp nm) = false := rfl
theorem capsKeep_capsIssue (bp : String) (nm : Yaml) (f : List Yaml) :
    capsKeep (capsIssue bp nm f) = true := rfl

theorem issueIdSafe_hostNetwork_baseline :
    issueIdSafe (hostFieldIssue "baseline" "hostNetwork") = true := rfl
theorem issueIdSafe_hostPID_baseline :
    issueIdSafe (hostFieldIssue "baseline" "hostPID") = true := rfl
theorem issueIdSafe_hostIPC_baseline :
    issueIdSafe (hostFieldIssue "baseline" "hostIPC") = true := rfl
theorem issueIdSafe_hostPathIssue_baseline (i : Nat) :
    issueIdSafe (hostPathIssue "baseline" i) = true := rfl
theorem issueIdSafe_privilegedIssue (bp : String) (nm : Yaml) :
    issueIdSafe (privilegedIssue bp nm) = true := rfl
theorem issueIdSafe_apeIssue (bp : String) (nm : Yaml) :
    issueIdSafe (apeIssue bp nm) = true := rfl

theorem stampKeysAbsent_hostFieldIssue (profile field : String) :
    stampKeysAbsent (hostFieldIssue profile field) = true := rfl
theorem stampKeysAbsent_hostPathIssue (profile : String) (i : Nat) :
    stampKeysAbsent (hostPathIssue profile i) = true := rfl
theorem stampKeysAbsent_privilegedIssue (bp : String) (nm : Yaml) :
    stampKeysAbsent (privilegedIssue bp nm) = true := rfl
theorem stampKeysAbsent_apeIssue (bp : String) (nm : Yaml) :
    stampKeysAbsent (apeIssue bp nm) = true := rfl
theorem stampKeysAbsent_nonRootIssue (bp : String) (nm : Yaml) :
    stampKeysAbsent (nonRootIssue bp nm) = true := rfl
theorem stampKeysAbsent_capsIssue (bp : String) (nm : Yaml) (f : List Yaml) :
    stampKeysAbsent (capsIssue bp nm f) = true := rfl

/-! ## Propagation of per-issue facts through the loops -/

theorem containerIssues_all (p : PyDict → Bool) (profile : String)
    (hpriv : ∀ bp nm, p (privilegedIssue bp nm) = true)
    (hape : ∀ bp nm, p (apeIssue bp nm) = true)
    (hnr : ∀ bp nm, (profile == "restricted") = true → p (nonRootIssue bp nm) = true)
    (hcaps : ∀ bp nm f, (profile == "restricted") = true → p (capsIssue bp nm f) = true) :
    ∀ i c is, containerIssues profile i c = Except.ok is → is.all p = true := by
  intro i c is h
  cases c with
  | map ckvs =>
    cases hsc : pyOr (lookupD ckvs "securityContext" Yaml.null) (Yaml.map []) with
    | map sckvs =>
      rw [containerIssues_map profile i ckvs sckvs hsc] at h
      cases haddv : pyGet (pyOr (lookupD sckvs "capabilities" Yaml.null) (Yaml.map [])) "add" Yaml.null with
      | error e => rw [haddv, exceptBind_err] at h; cases h
      | ok addv =>
        rw [haddv, exceptBind_ok] at h
        cases hiter : pyIter (pyOr addv (Yaml.seq [])) with
        | error e => rw [hiter, exceptBind_err] at h; cases h
        | ok capsList =>
          rw [hiter, exceptBind_ok] at h
          have his : is = _ := (Except.ok.injEq _ _).mp h.symm
          rw [his]
          rw [List.all_append, List.all_append, List.all_append]
          refine (by simp : ∀ a b c d : Bool, a = true → b = true → c = true → d = true → (((a && b) && c) && d) = true) _ _ _ _ ?_ ?_ ?_ ?_
          · split
            · simp [hpriv]
            · rfl
          · split
            · simp [hape]
            · rfl
          · cases hpr : (profile == "restricted") with
            | true =>
              rw [if_pos rfl]
              split
              · simp [hnr _ _ hpr]
              · rfl
            | false => rw [if_neg (by simp [hpr])]; rfl
          · split
            · rename_i hcond
              have hpr : (profile == "restricted") = true := (Bool.and_eq_true _ _ |>.mp hcond).2
              simp [hcaps _ _ _ hpr]
            · rfl
    | null =>
      rw [containerIssues, pyGet_map, exceptBind_ok, hsc, pyGet_map, exceptBind_ok] at h
      cases h
    | bool b =>
      rw [containerIssues, pyGet_map, exceptBind_ok, hsc, pyGet_map, exceptBind_ok] at h
      cases h
    | int n =>
      rw [containerIssues, pyGet_map, exceptBind_ok, hsc, pyGet_map, exceptBind_ok] at h
      cases h
    | str s =>
      rw [containerIssues, pyGet_map, exceptBind_ok, hsc, pyGet_map, exceptBind_ok] at h
      cases h
    | seq xs =>
      rw [containerIssues, pyGet_map, exceptBind_ok, hsc, pyGet_map, exceptBind_ok] at h
      cases h
  | null => rw [containerIssues] at h; cases h
  | bool b => rw [containerIssues] at h; cases h
  | int n => rw [containerIssues] at h; cases h
  | str s => rw [containerIssues] at h; cases h
  | seq xs => rw [containerIssues] at h; cases h

theorem hostFlagIssues_all (p : PyDict → Bool) (profile : String)
    (h1 : p (hostFieldIssue profile "hostNetwork") = true)
    (h2 : p (hostFieldIssue profile "hostPID") = true)
    (h3 : p (hostFieldIssue profile "hostIPC") = true) :
    ∀ ps is, hostFlagIssues ps profile = Except.ok is → is.all p = true := by
  intro ps is h
  cases ps with
  | map kvs =>
    rw [hostFlagIssues, pyGet_map, exceptBind_ok, pyGet_map, exceptBind_ok, pyGet_map,
      exceptBind_ok] at h
    have his : is = _ := (Except.ok.injEq _ _).mp h.symm
    rw [his, List.all_append, List.all_append]
    refine (by simp : ∀ a b c : Bool, a = true → b = true → c = true → ((a && b) && c) = true)
      _ _ _ ?_ ?_ ?_
    · split
      · simp [h1]
      · rfl
    · split
      · simp [h2]
      · rfl
    · split
      · simp [h3]
      · rfl
  | null => rw [hostFlagIssues] at h; cases h
  | bool b => rw [hostFlagIssues] at h; cases h
  | int n => rw [hostFlagIssues] at h; cases h
  | str s => rw [hostFlagIssues] at h; cases h
  | seq xs => rw [hostFlagIssues] at h; cases h

theorem volumeIssues_all (p : PyDict → Bool) (profile : String)
    (hp : ∀ i, p (hostPathIssue profile i) = true) :
    ∀ i v is, volumeIssues profile i v = Except.ok is → is.all p = true := by
  intro i v is h
  rw [volumeIssues] at h
  cases hb : pyContains "hostPath" v with
  | error e => rw [hb, exceptBind_err] at h; cases h
  | ok b =>
    rw [hb, exceptBind_ok] at h
    have his : is = _ := (Except.ok.injEq _ _).mp h.symm
    rw [his]
    split
    · simp [hp]
    · rfl

theorem volLoop_all (p : PyDict → Bool) (profile : String)
    (hitem : ∀ i v is1, volumeIssues profile i v = Except.ok is1 → is1.all p = true) :
    ∀ vs i is, volLoop profile i vs = Except.ok is → is.all p = true := by
  intro vs
  induction vs with
  | nil =>
    intro i is h
    rw [volLoop] at h
    have his : is = _ := (Except.ok.injEq _ _).mp h.symm
    rw [his]
    rfl
  | cons v vs ih =>
    intro i is h
    rw [volLoop] at h
    cases h1 : volumeIssues profile i v with
    | error e => rw [h1, exceptBind_err] at h; cases h
    | ok is1 =>
      rw [h1, exceptBind_ok] at h
      cases h2 : volLoop profile (i + 1) vs with
      | error e => rw [h2, exceptBind_err] at h; cases h
      | ok rest =>
        rw [h2, exceptBind_ok] at h
        have his : is = is1 ++ rest := (Except.ok.injEq _ _).mp h.symm
        rw [his, List.all_append, hitem i v is1 h1, ih (i + 1) rest h2]
        rfl

theorem conLoop_all (p : PyDict → Bool) (profile : String)
    (hitem : ∀ i c is1, containerIssues profile i c = Except.ok is1 → is1.all p = true) :
    ∀ cs i is, conLoop profile i cs = Except.ok is → is.all p = true := by
  intro cs
  induction cs with
  | nil =>
    intro i is h
    rw [conLoop] at h
    have his : is = _ := (Except.ok.injEq _ _).mp h.symm
    rw [his]
    rfl
  | cons c cs ih =>
    intro i is h
    rw [conLoop] at h
    cases h1 : containerIssues profile i c with
    | error e => rw [h1, exceptBind_err] at h; cases h
    | ok is1 =>
      rw [h1, exceptBind_ok] at h
      cases h2 : conLoop profile (i + 1) cs with
      | error e => rw [h2, exceptBind_err] at h; cases h
      | ok rest =>
        rw [h2, exceptBind_ok] at h
        have his : is = is1 ++ rest := (Except.ok.injEq _ _).mp h.symm
        rw [his, List.all_append, hitem i c is1 h1, ih (i + 1) rest h2]
        rfl

/-- Every issue `_check_pod_spec` emits satisfies `p`, provided every
issue constructor it can reach under `profile` does. -/
theorem check_all (p : PyDict → Bool) (profile : String)
    (h1 : p (hostFieldIssue profile "hostNetwork") = true)
    (h2 : p (hostFieldIssue profile "hostPID") = true)
    (h3 : p (hostFieldIssue profile "hostIPC") = true)
    (hhp : ∀ i, p (hostPathIssue profile i) = true)
    (hpriv : ∀ bp nm, p (privilegedIssue bp nm) = true)
    (hape : ∀ bp nm, p (apeIssue bp nm) = true)
    (hnr : ∀ bp nm, (profile == "restricted") = true → p (nonRootIssue bp nm) = true)
    (hcaps : ∀ bp nm f, (profile == "restricted") = true → p (capsIssue bp nm f) = true) :
    ∀ ps is, _check_pod_spec ps profile = Except.ok is → is.all p = true := by
  intro ps is h
  rw [_check_pod_spec] at h
  cases hh : hostFlagIssues ps profile with
  | error e => rw [hh, exceptBind_err] at h; cases h
  | ok hostIs =>
    rw [hh, exceptBind_ok] at h
    cases hv0 : pyGet ps "volumes" (Yaml.seq []) with
    | error e => rw [hv0, exceptBind_err] at h; cases h
    | ok volsv =>
      rw [hv0, exceptBind_ok] at h
      cases hv1 : pyIter volsv with
      | error e => rw [hv1, exceptBind_err] at h; cases h
      | ok vols =>
        rw [hv1, exceptBind_ok] at h
        cases hv2 : volLoop profile 0 vols with
        | error e => rw [hv2, exceptBind_err] at h; cases h
        | ok volIs =>
          rw [hv2, exceptBind_ok] at h
          cases hc0 : pyGet ps "containers" (Yaml.seq []) with
          | error e => rw [hc0, exceptBind_err] at h; cases h
          | ok consv =>
            rw [hc0, exceptBind_ok] at h
            cases hc1 : pyIter consv with
            | error e => rw [hc1, exceptBind_err] at h; cases h
            | ok cons =>
              rw [hc1, exceptBind_ok] at h
              cases hc2 : conLoop profile 0 cons with
              | error e => rw [hc2, exceptBind_err] at h; cases h
              | ok conIs =>
                rw [hc2, exceptBind_ok] at h
                have his : is = hostIs ++ volIs ++ conIs := (Except.ok.injEq _ _).mp h.symm
                rw [his, List.all_append, List.all_append,
                  hostFlagIssues_all p profile h1 h2 h3 ps hostIs hh,
                  volLoop_all p profile (volumeIssues_all p profile hhp) vols 0 volIs hv2,
                  conLoop_all p profile (containerIssues_all p profile hpriv hape hnr hcaps) cons 0 conIs hc2]
                rfl

/-! ## Stamping lemmas -/

theorem dget_stampIssue_id (k n ns : Yaml) (d : PyDict) :
    dget (stampIssue k n ns d) "id" = dget d "id" := by
  unfold stampIssue
  rw [dget_setdefault_ne _ _ _ _ (by rfl), dget_setdefault_ne _ _ _ _ (by rfl),
    dget_setdefault_ne _ _ _ _ (by rfl)]

theorem issueIdSafe_stamp (k n ns : Yaml) (d : PyDict) :
    issueIdSafe (stampIssue k n ns d) = issueIdSafe d := by
  unfold issueIdSafe
  rw [dget_stampIssue_id]

theorem docIssues_all (p : PyDict → Bool) (profile : String)
    (hstamp : ∀ k n ns d, p d = true → p (stampIssue k n ns d) = true)
    (hcheck : ∀ ps is, _check_pod_spec ps profile = Except.ok is → is.all p = true) :
    ∀ doc is, docIssues doc profile = Except.ok is → is.all p = true := by
  intro doc is h
  rw [docIssues] at h
  cases h0 : pyGet doc "metadata" Yaml.null with
  | error e => rw [h0, exceptBind_err] at h; cases h
  | ok metav =>
    rw [h0, exceptBind_ok] at h
    cases h1 : pyGet (pyOr metav (Yaml.map [])) "name" Yaml.null with
    | error e => rw [h1, exceptBind_err] at h; cases h
    | ok namev =>
      rw [h1, exceptBind_ok] at h
      cases h2 : pyGet (pyOr metav (Yaml.map [])) "namespace" Yaml.null with
      | error e => rw [h2, exceptBind_err] at h; cases h
      | ok nsv =>
        rw [h2, exceptBind_ok] at h
        cases h3 : pyGet doc "kind" Yaml.null with
        | error e => rw [h3, exceptBind_err] at h; cases h
        | ok kindv =>
          rw [h3, exceptBind_ok] at h
          cases h4 : _extract_pod_spec doc with
          | error e => rw [h4, exceptBind_err] at h; cases h
          | ok ps =>
            rw [h4, exceptBind_ok] at h
            cases h5 : _check_pod_spec ps profile with
            | error e => rw [h5, exceptBind_err] at h; cases h
            | ok is0 =>
              rw [h5, exceptBind_ok] at h
              have his : is = is0.map (stampIssue kindv namev nsv) :=
                (Except.ok.injEq _ _).mp h.symm
              rw [his, List.all_map]
              have hall := hcheck ps is0 h5
              rw [List.all_eq_true] at hall ⊢
              intro d hd
              exact hstamp kindv namev nsv d (hall d hd)

theorem docsLoop_all (p : PyDict → Bool) (profile : String)
    (hdoc : ∀ doc is1, docIssues doc profile = Except.ok is1 → is1.all p = true) :
    ∀ ds is, docsLoop profile ds = Except.ok is → is.all p = true := by
  intro ds
  induction ds with
  | nil =>
    intro is h
    rw [docsLoop] at h
    have his : is = _ := (Except.ok.injEq _ _).mp h.symm
    rw [his]
    rfl
  | cons d ds ih =>
    intro is h
    rw [docsLoop] at h
    cases h1 : docIssues d profile with
    | error e => rw [h1, exceptBind_err] at h; cases h
    | ok is1 =>
      rw [h1, exceptBind_ok] at h
      cases h2 : docsLoop profile ds with
      | error e => rw [h2, exceptBind_err] at h; cases h
      | ok rest =>
        rw [h2, exceptBind_ok] at h
        have his : is = is1 ++ rest := (Except.ok.injEq _ _).mp h.symm
        rw [his, List.all_append, hdoc d is1 h1, ih rest h2]
        rfl

theorem analyzeDocs_all (p : PyDict → Bool) (profile : String)
    (hdoc : ∀ doc is1, docIssues doc profile = Except.ok is1 → is1.all p = true) :
    ∀ docs r, analyzeDocs docs profile = Except.ok r → r.issues.all p = true := by
  intro docs r h
  rw [analyzeDocs] at h
  cases h1 : docsLoop profile (docs.filter Yaml.truthy) with
  | error e => rw [h1, exceptBind_err] at h; cases h
  | ok all =>
    rw [h1, exceptBind_ok] at h
    have hr : r = { profile := profile, issueCount := all.length, issues := all } :=
      (Except.ok.injEq _ _).mp h.symm
    rw [hr]
    exact docsLoop_all p profile hdoc _ all h1

/-! ## Claim C8 -/

/-- C8: for every input document stream, when the profile is `baseline`
every issue of a successful analysis carries a string id that does not
begin with `PSS-RESTRICTED-` — the restricted-only rules never emit under
baseline, and no other rule id has that prefix. -/
theorem claim_C8_baseline_no_restricted_ids (docs : List Yaml) (r : AnalysisResult)
    (h : analyzeDocs docs "baseline" = Except.ok r) :
    r.issues.all issueIdSafe = true := by
  refine analyzeDocs_all issueIdSafe "baseline" ?_ docs r h
  refine docIssues_all issueIdSafe "baseline" ?_ ?_
  · intro k n ns d hd
    rw [issueIdSafe_stamp]
    exact hd
  · refine check_all issueIdSafe "baseline" issueIdSafe_hostNetwork_baseline
      issueIdSafe_hostPID_baseline issueIdSafe_hostIPC_baseline
      issueIdSafe_hostPathIssue_baseline issueIdSafe_privilegedIssue issueIdSafe_apeIssue
      ?_ ?_
    · intro bp nm hfalse
      exact absurd hfalse (by decide)
    · intro bp nm f hfalse
      exact absurd hfalse (by decide)

/-- A pod document whose container would trigger both restricted-only
rules (missing `runAsNonRoot` with no safe `runAsUser`, plus a forbidden
added capability). -/
def w8doc : Yaml :=
  Yaml.map
    [("kind", Yaml.str "Pod"),
     ("metadata", Yaml.map [("name", Yaml.str "app")]),
     ("spec", Yaml.map
       [("containers", Yaml.seq
         [Yaml.map
           [("name", Yaml.str "c1"),
            ("securityContext", Yaml.map
              [("runAsUser", Yaml.int 0),
               ("capabilities", Yaml.map [("add", Yaml.seq [Yaml.str "SYS_ADMIN"])])])]])])]

/-- The concrete baseline analysis of `w8doc`: one privilege-escalation
issue, nothing restricted-prefixed. -/
def w8res : AnalysisResult :=
  { profile := "baseline", issueCount := 1,
    issues :=
      [[("id", Yaml.str "PSS-ALLOW_PRIV_ESC"),
        ("level", Yaml.str "error"),
        ("path", Yaml.str "spec.containers[0].securityContext.allowPrivilegeEscalation"),
        ("message", Yaml.str "Container c1 allows privilege escalation."),
        ("recommendedPatch", Yaml.str "spec.containers[0].securityContext:\n  allowPrivilegeEscalation: false\n"),
        ("resourceKind", Yaml.str "Pod"),
        ("resourceName", Yaml.str "app"),
        ("namespace", Yaml.null)]] }

/-- C8 witness: the baseline analysis of `w8doc` succeeds (with a
non-empty issue list, the restricted-rule conditions being present), and
the claim theorem applies to it. -/
theorem claim_C8_witness :
    analyzeDocs [w8doc] "baseline" = Except.ok w8res ∧ w8res.issues.all issueIdSafe = true :=
  ⟨rfl, claim_C8_baseline_no_restricted_ids [w8doc] w8res rfl⟩

/-! ## Claim C3 -/

/-- C3: for every manifest, a profile other than `baseline` or
`restricted` is rejected at the declared tool interface as a caller error
(`InvalidProfile`) with no document processed and no partial result. -/
theorem claim_C3_invalid_profile (docs : List Yaml) (profile : String)
    (h1 : profile ≠ "baseline") (h2 : profile ≠ "restricted") :
    analyze_manifest_for_pss docs profile = Except.error ToolError.invalidProfile := by
  rw [analyze_manifest_for_pss, if_neg (by simp [h1, h2])]

/-- C3 witness: the profile `bogus` is rejected. -/
theorem claim_C3_witness :
    ("bogus" : String) ≠ "baseline" ∧ ("bogus" : String) ≠ "restricted" ∧
    analyze_manifest_for_pss [w8doc] "bogus" = Except.error ToolError.invalidProfile :=
  ⟨by decide, by decide, claim_C3_invalid_profile [w8doc] "bogus" (by decide) (by decide)⟩

/-! ## Claim C1, counterexample part -/

/-- A Deployment document whose `spec.template` holds a non-mapping
value. -/
def c1doc : Yaml :=
  Yaml.map [("kind", Yaml.str "Deployment"),
            ("spec", Yaml.map [("template", Yaml.str "oops")])]

/-- C1 is false as stated: on a document where the intermediate key
`spec.template` holds a non-mapping value, `_extract_pod_spec` raises
`AttributeError` (Python evaluates `"oops".get("spec", {})`) instead of
returning a PodSpec. -/
theorem claim_C1_counterexample :
    _extract_pod_spec c1doc = Except.error PyErr.attributeError := rfl

/-! ## Claim C2, counterexample part -/

/-- C2 is false as stated: a PodSpec mapping whose `volumes` field is
explicitly null does not resolve to the empty-sequence default —
`pod_spec.get("volumes", [])` returns the stored `None`, and
`enumerate(None)` raises `TypeError`. -/
theorem claim_C2_counterexample :
    _check_pod_spec (Yaml.map [("volumes", Yaml.null)]) "restricted" =
      Except.error PyErr.typeError := rfl

/-! ## Claim C1, amended part: the exception-free extraction domain -/

theorem pyGet_map_getD (kvs : List (String × Yaml)) (k : String) (d : Yaml) :
    pyGet (Yaml.map kvs) k d = Except.ok ((lookupY kvs k).getD d) := rfl

/-- The `kind` value, when present, is a string or falsy — the shapes on
which `(doc.get("kind") or "").lower()` cannot raise. -/
def kindFieldOk (kvs : List (String × Yaml)) : Bool :=
  match lookupY kvs "kind" with
  | none => true
  | some (Yaml.str _) => true
  | some v => !v.truthy

/-- The kind string `_extract_pod_spec` dispatches on (meaningful under
`kindFieldOk`). -/
def kindStrOf (kvs : List (String × Yaml)) : String :=
  match lookupY kvs "kind" with
  | some (Yaml.str s) => strLower s
  | _ => ""

/-- The defaulted `spec` value (`doc.get("spec") or {}`). -/
def specValOf (kvs : List (String × Yaml)) : Yaml :=
  pyOr (lookupD kvs "spec" Yaml.null) (Yaml.map [])

theorem specValOf_eq (kvs : List (String × Yaml)) :
    pyOr (lookupD kvs "spec" Yaml.null) (Yaml.map []) = specValOf kvs := rfl

/-- The value at `k`, if present, is a mapping or falsy — the shapes an
`x.get(k, {}) ... or {}` tail resolves to a mapping without raising. -/
def mapOrFalsyOrAbsent (kvs : List (String × Yaml)) (k : String) : Bool :=
  match lookupY kvs k with
  | none => true
  | some (Yaml.map _) => true
  | some v => !v.truthy

/-- The `spec.get("template", {}).get("spec", {}) or {}` chain meets only
mappings (or absent keys). -/
def templateChainOk (skvs : List (String × Yaml)) : Bool :=
  match lookupY skvs "template" with
  | none => true
  | some (Yaml.map tkvs) => mapOrFalsyOrAbsent tkvs "spec"
  | some _ => false

/-- The cronjob chain `spec.get("jobTemplate", {}).get("spec",
{}).get("template", {}).get("spec", {}) or {}` meets only mappings (or
absent keys). -/
def cronChainOk (skvs : List (String × Yaml)) : Bool :=
  match lookupY skvs "jobTemplate" with
  | none => true
  | some (Yaml.map jkvs) =>
    (match lookupY jkvs "spec" with
     | none => true
     | some (Yaml.map s1kvs) => templateChainOk s1kvs
     | some _ => false)
  | some _ => false

/-- Documents on which every value met by the extraction traversal is a
mapping, falsy where an `or {}` follows, or absent: the domain on which
the extractor is exception-free and returns a mapping. -/
def safeDoc (kvs : List (String × Yaml)) : Bool :=
  kindFieldOk kvs &&
  (match specValOf kvs with
   | Yaml.map skvs =>
     (if kindStrOf kvs == "pod" then true
      else if kindStrOf kvs == "deployment" || kindStrOf kvs == "replicaset" || kindStrOf kvs == "statefulset" || kindStrOf kvs == "daemonset" then
        templateChainOk skvs
      else if kindStrOf kvs == "job" then templateChainOk skvs
      else if kindStrOf kvs == "cronjob" then cronChainOk skvs
      else true)
   | _ => false)

theorem pyLower_kindVal (kvs : List (String × Yaml)) (hk : kindFieldOk kvs = true) :
    pyLower (pyOr (lookupD kvs "kind" Yaml.null) (Yaml.str "")) = Except.ok (kindStrOf kvs) := by
  unfold kindFieldOk at hk
  unfold kindStrOf lookupD
  cases hv : lookupY kvs "kind" with
  | none => rfl
  | some v =>
    rw [hv] at hk
    cases v with
    | str s =>
      show pyLower (pyOr (Yaml.str s) (Yaml.str "")) = Except.ok (strLower s)
      by_cases hs : s = ""
      · subst hs; rfl
      · rw [pyOr, if_pos (by simp [Yaml.truthy, hs])]
        rfl
    | null => rfl
    | bool b =>
      cases b with
      | false => rfl
      | true => simp [Yaml.truthy] at hk
    | int n =>
      have hn : (n == 0) = true := by simpa [Yaml.truthy] using hk
      show pyLower (pyOr (Yaml.int n) (Yaml.str "")) = Except.ok ""
      rw [pyOr, if_neg (by simp [Yaml.truthy, hn])]
      rfl
    | seq xs =>
      have hx : xs.isEmpty = true := by simpa [Yaml.truthy] using hk
      show pyLower (pyOr (Yaml.seq xs) (Yaml.str "")) = Except.ok ""
      rw [pyOr, if_neg (by simp [Yaml.truthy, hx])]
      rfl
    | map m =>
      have hm : m.isEmpty = true := by simpa [Yaml.truthy] using hk
      show pyLower (pyOr (Yaml.map m) (Yaml.str "")) = Except.ok ""
      rw [pyOr, if_neg (by simp [Yaml.truthy, hm])]
      rfl

theorem pyOr_map_resolve (v : Yaml)
    (h : (match v with | Yaml.map _ => true | w => !w.truthy) = true) :
    ∃ m, pyOr v (Yaml.map []) = Yaml.map m := by
  cases v with
  | map m =>
    cases him : m.isEmpty with
    | true => exact ⟨[], by rw [pyOr, if_neg (by simp [Yaml.truthy, him])]⟩
    | false => exact ⟨m, by rw [pyOr, if_pos (by simp [Yaml.truthy, him])]⟩
  | null => exact ⟨[], rfl⟩
  | bool b =>
    cases b with
    | false => exact ⟨[], rfl⟩
    | true => simp [Yaml.truthy] at h
  | int n =>
    have hn : (n == 0) = true := by simpa [Yaml.truthy] using h
    exact ⟨[], by rw [pyOr, if_neg (by simp [Yaml.truthy, hn])]⟩
  | str s =>
    have hs : (s == "") = true := by simpa [Yaml.truthy] using h
    exact ⟨[], by rw [pyOr, if_neg (by simp [Yaml.truthy, hs])]⟩
  | seq xs =>
    have hx : xs.isEmpty = true := by simpa [Yaml.truthy] using h
    exact ⟨[], by rw [pyOr, if_neg (by simp [Yaml.truthy, hx])]⟩

theorem lookupD_pyOr_map (tkvs : List (String × Yaml)) (k : String)
    (h : mapOrFalsyOrAbsent tkvs k = true) :
    ∃ m, pyOr ((lookupY tkvs k).getD (Yaml.map [])) (Yaml.map []) = Yaml.map m := by
  unfold mapOrFalsyOrAbsent at h
  cases hv : lookupY tkvs k with
  | none => exact ⟨[], rfl⟩
  | some v =>
    rw [hv] at h
    rw [Option.getD_some]
    exact pyOr_map_resolve v (by cases v <;> first | rfl | simpa using h)

theorem templateChain_extract (skvs : List (String × Yaml)) (h : templateChainOk skvs = true) :
    ∃ pkvs,
      (pyGet (Yaml.map skvs) "template" (Yaml.map []) >>= fun t =>
        pyGet t "spec" (Yaml.map []) >>= fun s => pure (pyOr s (Yaml.map []))) =
      Except.ok (Yaml.map pkvs) := by
  rw [pyGet_map_getD, exceptBind_ok]
  unfold templateChainOk at h
  cases ht : lookupY skvs "template" with
  | none => exact ⟨[], rfl⟩
  | some t =>
    rw [ht] at h
    rw [Option.getD_some]
    cases t with
    | map tkvs =>
      rw [pyGet_map_getD, exceptBind_ok]
      obtain ⟨m, hm⟩ := lookupD_pyOr_map tkvs "spec" h
      exact ⟨m, by rw [hm]; rfl⟩
    | null => simp at h
    | bool b => simp at h
    | int n => simp at h
    | str s => simp at h
    | seq xs => simp at h

theorem cronChain_extract (skvs : List (String × Yaml)) (h : cronChainOk skvs = true) :
    ∃ pkvs,
      (pyGet (Yaml.map skvs) "jobTemplate" (Yaml.map []) >>= fun jt =>
        pyGet jt "spec" (Yaml.map []) >>= fun s1 =>
        pyGet s1 "template" (Yaml.map []) >>= fun t =>
        pyGet t "spec" (Yaml.map []) >>= fun s2 => pure (pyOr s2 (Yaml.map []))) =
      Except.ok (Yaml.map pkvs) := by
  rw [pyGet_map_getD, exceptBind_ok]
  unfold cronChainOk at h
  cases hjt : lookupY skvs "jobTemplate" with
  | none => exact ⟨[], rfl⟩
  | some jt =>
    rw [hjt] at h
    rw [Option.getD_some]
    cases jt with
    | map jkvs =>
      rw [pyGet_map_getD, exceptBind_ok]
      have h2 : (match lookupY jkvs "spec" with
        | none => true
        | some (Yaml.map s1kvs) => templateChainOk s1kvs
        | some _ => false) = true := h
      cases hs1 : lookupY jkvs "spec" with
      | none => exact ⟨[], rfl⟩
      | some s1 =>
        rw [hs1] at h2
        rw [Option.getD_some]
        cases s1 with
        | map s1kvs => exact templateChain_extract s1kvs h2
        | null => simp at h2
        | bool b => simp at h2
        | int n => simp at h2
        | str s => simp at h2
        | seq xs => simp at h2
    | null => simp at h
    | bool b => simp at h
    | int n => simp at h
    | str s => simp at h
    | seq xs => simp at h

/-- C1 (amended): the claim fails for documents where the traversal hits a
truthy non-mapping (see the counterexample); what holds is: on every
document mapping whose `kind` is a string or falsy and whose extraction
path meets only mappings, falsy values where an `or {}` follows, or
absent keys (so a missing intermediate key resolves to an empty mapping),
`_extract_pod_spec` returns a PodSpec mapping without raising, and the
rule set produces no findings on an empty PodSpec. -/
theorem claim_C1_amended (kvs : List (String × Yaml)) (profile : String)
    (h : safeDoc kvs = true) :
    (∃ pkvs, _extract_pod_spec (Yaml.map kvs) = Except.ok (Yaml.map pkvs)) ∧
    _check_pod_spec (Yaml.map []) profile = Except.ok [] := by
  refine ⟨?_, rfl⟩
  rw [safeDoc, Bool.and_eq_true] at h
  obtain ⟨hk, hrest⟩ := h
  rw [_extract_pod_spec, pyGet_map, exceptBind_ok, pyLower_kindVal kvs hk, exceptBind_ok,
    pyGet_map, exceptBind_ok, specValOf_eq]
  cases hs : specValOf kvs with
  | map skvs =>
    rw [hs] at hrest
    have hr2 : (if kindStrOf kvs == "pod" then true
      else if kindStrOf kvs == "deployment" || kindStrOf kvs == "replicaset" || kindStrOf kvs == "statefulset" || kindStrOf kvs == "daemonset" then
        templateChainOk skvs
      else if kindStrOf kvs == "job" then templateChainOk skvs
      else if kindStrOf kvs == "cronjob" then cronChainOk skvs
      else true) = true := hrest
    cases hpod : (kindStrOf kvs == "pod") with
    | true =>
      rw [if_pos rfl]
      exact ⟨skvs, rfl⟩
    | false =>
      rw [if_neg (by simp)]
      rw [if_neg (by simp [hpod])] at hr2
      cases hdep : (kindStrOf kvs == "deployment" || kindStrOf kvs == "replicaset" || kindStrOf kvs == "statefulset" || kindStrOf kvs == "daemonset") with
      | true =>
        rw [if_pos rfl]
        rw [if_pos hdep] at hr2
        exact templateChain_extract skvs hr2
      | false =>
        rw [if_neg (by simp)]
        rw [if_neg (by simp [hdep])] at hr2
        cases hjob : (kindStrOf kvs == "job") with
        | true =>
          rw [if_pos rfl]
          rw [if_pos hjob] at hr2
          exact templateChain_extract skvs hr2
        | false =>
          rw [if_neg (by simp)]
          rw [if_neg (by simp [hjob])] at hr2
          cases hcron : (kindStrOf kvs == "cronjob") with
          | true =>
            rw [if_pos rfl]
            rw [if_pos hcron] at hr2
            exact cronChain_extract skvs hr2
          | false =>
            rw [if_neg (by simp)]
            exact ⟨skvs, rfl⟩
  | null => rw [hs] at hrest; simp at hrest
  | bool b => rw [hs] at hrest; simp at hrest
  | int n => rw [hs] at hrest; simp at hrest
  | str s => rw [hs] at hrest; simp at hrest
  | seq xs => rw [hs] at hrest; simp at hrest

/-- C1 witness: a Deployment with no `spec` at all is in the safe domain;
its extraction yields the empty PodSpec and the rule set finds nothing. -/
theorem claim_C1_amended_witness :
    safeDoc [("kind", Yaml.str "Deployment")] = true ∧
    ((∃ pkvs, _extract_pod_spec (Yaml.map [("kind", Yaml.str "Deployment")]) = Except.ok (Yaml.map pkvs)) ∧
     _check_pod_spec (Yaml.map []) "restricted" = Except.ok []) :=
  ⟨rfl, claim_C1_amended [("kind", Yaml.str "Deployment")] "restricted" rfl⟩

/-! ## Claim C2, amended part: the totality domain of the rule set -/

/-- Values Python can iterate (`enumerate`/`for`): lists, strings, dicts. -/
def iterOk (v : Yaml) : Bool :=
  match v with
  | Yaml.seq _ => true
  | Yaml.str _ => true
  | Yaml.map _ => true
  | _ => false

/-- The elements Python iteration yields (meaningful under `iterOk`). -/
def iterElems (v : Yaml) : List Yaml :=
  match v with
  | Yaml.seq xs => xs
  | Yaml.str s => s.toList.map (fun ch => Yaml.str (String.singleton ch))
  | Yaml.map kvs => kvs.map (fun kv => Yaml.str kv.1)
  | _ => []

theorem pyIter_ok (v : Yaml) (h : iterOk v = true) : pyIter v = Except.ok (iterElems v) := by
  cases v <;> first | rfl | simp [iterOk] at h

/-- Values supporting `"hostPath" in v`: dicts, lists, strings. -/
def volElemOk (v : Yaml) : Bool :=
  match v with
  | Yaml.map _ => true
  | Yaml.seq _ => true
  | Yaml.str _ => true
  | _ => false

/-- Is the value a mapping? -/
def isMapB (v : Yaml) : Bool :=
  match v with
  | Yaml.map _ => true
  | _ => false

/-- The entries of a mapping (meaningful under `isMapB`). -/
def mapEntries (v : Yaml) : List (String × Yaml) :=
  match v with
  | Yaml.map m => m
  | _ => []

theorem isMapB_eq (v : Yaml) (h : isMapB v = true) : v = Yaml.map (mapEntries v) := by
  cases v <;> first | rfl | simp [isMapB] at h

/-- The resolved `securityContext` (`c.get("securityContext") or {}`). -/
def scOf (ckvs : List (String × Yaml)) : Yaml :=
  pyOr (lookupD ckvs "securityContext" Yaml.null) (Yaml.map [])

/-- The resolved `capabilities` (`sc.get("capabilities") or {}`). -/
def capsMapOf (sckvs : List (String × Yaml)) : Yaml :=
  pyOr (lookupD sckvs "capabilities" Yaml.null) (Yaml.map [])

/-- The resolved `capabilities.add` (`... .get("add") or []`). -/
def addValOf (cmkvs : List (String × Yaml)) : Yaml :=
  pyOr (lookupD cmkvs "add" Yaml.null) (Yaml.seq [])

/-- Containers on which the per-container checks cannot raise: a dict
whose `securityContext` resolves (via `or {}`) to a dict, whose
`capabilities` resolves (via `or {}`) to a dict, and whose
`capabilities.add` resolves (via `or []`) to an iterable. -/
def containerOk (c : Yaml) : Bool :=
  isMapB c &&
  isMapB (scOf (mapEntries c)) &&
  isMapB (capsMapOf (mapEntries (scOf (mapEntries c)))) &&
  iterOk (addValOf (mapEntries (capsMapOf (mapEntries (scOf (mapEntries c))))))

/-- PodSpec mappings over which `_check_pod_spec` is total: `volumes`
resolves to an iterable of `in`-supporting values and `containers` to an
iterable of well-shaped container dicts. -/
def wellShapedPodSpec (kvs : List (String × Yaml)) : Bool :=
  (iterOk (lookupD kvs "volumes" (Yaml.seq [])) &&
   (iterElems (lookupD kvs "volumes" (Yaml.seq []))).all volElemOk) &&
  (iterOk (lookupD kvs "containers" (Yaml.seq [])) &&
   (iterElems (lookupD kvs "containers" (Yaml.seq []))).all containerOk)

theorem volumeIssues_ok (profile : String) (i : Nat) (v : Yaml) (h : volElemOk v = true) :
    ∃ is, volumeIssues profile i v = Except.ok is := by
  cases v with
  | map kvs => exact ⟨_, rfl⟩
  | seq xs => exact ⟨_, rfl⟩
  | str s => exact ⟨_, rfl⟩
  | null => simp [volElemOk] at h
  | bool b => simp [volElemOk] at h
  | int n => simp [volElemOk] at h

theorem volLoop_ok (profile : String) :
    ∀ vs i, (∀ v ∈ vs, volElemOk v = true) → ∃ is, volLoop profile i vs = Except.ok is := by
  intro vs
  induction vs with
  | nil => intro i h; exact ⟨[], rfl⟩
  | cons v vs ih =>
    intro i h
    obtain ⟨is1, h1⟩ := volumeIssues_ok profile i v (h v (by simp))
    obtain ⟨rest, h2⟩ := ih (i + 1) (fun w hw => h w (by simp [hw]))
    exact ⟨is1 ++ rest, by rw [volLoop, h1, exceptBind_ok, h2, exceptBind_ok]; rfl⟩

theorem containerIssues_ok (profile : String) (i : Nat) (c : Yaml) (h : containerOk c = true) :
    ∃ is, containerIssues profile i c = Except.ok is := by
  rw [containerOk, Bool.and_eq_true, Bool.and_eq_true, Bool.and_eq_true] at h
  obtain ⟨⟨⟨hc, hsc⟩, hcm⟩, hadd⟩ := h
  rw [isMapB_eq c hc]
  rw [containerIssues_map profile i (mapEntries c) (mapEntries (scOf (mapEntries c)))
    (isMapB_eq _ hsc)]
  have hfold : pyOr (lookupD (mapEntries (scOf (mapEntries c))) "capabilities" Yaml.null)
      (Yaml.map []) =
      Yaml.map (mapEntries (capsMapOf (mapEntries (scOf (mapEntries c))))) := isMapB_eq _ hcm
  rw [hfold, pyGet_map, exceptBind_ok]
  have hit : pyIter (pyOr (lookupD (mapEntries (capsMapOf (mapEntries (scOf (mapEntries c)))))
      "add" Yaml.null) (Yaml.seq [])) =
      Except.ok (iterElems (addValOf (mapEntries (capsMapOf (mapEntries (scOf (mapEntries c))))))) :=
    pyIter_ok _ hadd
  rw [hit, exceptBind_ok]
  exact ⟨_, rfl⟩

theorem conLoop_ok (profile : String) :
    ∀ cs i, (∀ c ∈ cs, containerOk c = true) → ∃ is, conLoop profile i cs = Except.ok is := by
  intro cs
  induction cs with
  | nil => intro i h; exact ⟨[], rfl⟩
  | cons c cs ih =>
    intro i h
    obtain ⟨is1, h1⟩ := containerIssues_ok profile i c (h c (by simp))
    obtain ⟨rest, h2⟩ := ih (i + 1) (fun w hw => h w (by simp [hw]))
    exact ⟨is1 ++ rest, by rw [conLoop, h1, exceptBind_ok, h2, exceptBind_ok]; rfl⟩

/-- C2 (amended): the claim fails for an explicitly null `volumes` or
`containers` (see the counterexample; those two fields use
`.get(field, default)`, which keeps a stored `None`); what holds is:
evaluation is total on every PodSpec mapping whose `volumes` and
`containers`, when present and truthy, are iterables of well-shaped
entries — in particular an explicitly null `securityContext` or
`capabilities` (which the code defaults through `or {}`) and a null
`capabilities.add` (defaulted through `or []`) are fine, and missing
fields resolve to their stated defaults. -/
theorem claim_C2_amended (kvs : List (String × Yaml)) (profile : String)
    (h : wellShapedPodSpec kvs = true) :
    ∃ is, _check_pod_spec (Yaml.map kvs) profile = Except.ok is := by
  rw [wellShapedPodSpec, Bool.and_eq_true, Bool.and_eq_true, Bool.and_eq_true] at h
  obtain ⟨⟨hv1, hv2⟩, hc1, hc2⟩ := h
  rw [_check_pod_spec]
  obtain ⟨hostIs, hh⟩ : ∃ is, hostFlagIssues (Yaml.map kvs) profile = Except.ok is := ⟨_, rfl⟩
  rw [hh, exceptBind_ok, pyGet_map, exceptBind_ok, pyIter_ok _ hv1, exceptBind_ok]
  obtain ⟨volIs, hvl⟩ := volLoop_ok profile (iterElems (lookupD kvs "volumes" (Yaml.seq []))) 0
    (by rw [List.all_eq_true] at hv2; exact fun v hv => hv2 v hv)
  rw [hvl, exceptBind_ok, pyGet_map, exceptBind_ok, pyIter_ok _ hc1, exceptBind_ok]
  obtain ⟨conIs, hcl⟩ := conLoop_ok profile (iterElems (lookupD kvs "containers" (Yaml.seq []))) 0
    (by rw [List.all_eq_true] at hc2; exact fun c hc => hc2 c hc)
  rw [hcl, exceptBind_ok]
  exact ⟨_, rfl⟩

/-- Concrete well-shaped PodSpec: a hostPath volume, and a container whose
`securityContext` is explicitly null. -/
def c2wkvs : List (String × Yaml) :=
  [("volumes", Yaml.seq [Yaml.map [("hostPath", Yaml.map [("path", Yaml.str "/tmp")])]]),
   ("containers", Yaml.seq [Yaml.map [("name", Yaml.str "c"), ("securityContext", Yaml.null)]])]

/-- C2 witness: the well-shaped PodSpec above (with an explicitly null
`securityContext`) evaluates without raising. -/
theorem claim_C2_amended_witness :
    wellShapedPodSpec c2wkvs = true ∧
    (∃ is, _check_pod_spec (Yaml.map c2wkvs) "restricted" = Except.ok is) :=
  ⟨rfl, claim_C2_amended c2wkvs "restricted" rfl⟩

/-! ## Claim C10 -/

/-- C10: a container whose `securityContext` key is explicitly null is
treated exactly as one without the key (both resolve to `{}` through
`or {}`): the evaluation results are identical; concretely both are the
privilege-escalation issue plus, under `restricted`, the non-root issue —
no exception, and the privileged and capability checks pass. -/
theorem claim_C10_null_securityContext (profile : String) (i : Nat)
    (rest : List (String × Yaml))
    (hrest : lookupY rest "securityContext" = none) :
    containerIssues profile i (Yaml.map (("securityContext", Yaml.null) :: rest)) =
      containerIssues profile i (Yaml.map rest) ∧
    containerIssues profile i (Yaml.map (("securityContext", Yaml.null) :: rest)) =
      Except.ok (apeIssue (basePath i) (nameOf i rest) ::
        (if profile == "restricted" then [nonRootIssue (basePath i) (nameOf i rest)] else [])) := by
  have hsc2 : pyOr (lookupD rest "securityContext" Yaml.null) (Yaml.map []) = Yaml.map [] := by
    unfold lookupD
    rw [hrest]
    rfl
  have hname : nameOf i (("securityContext", Yaml.null) :: rest) = nameOf i rest := by
    unfold nameOf lookupD lookupY
    rw [List.find?_cons_of_neg _ (by decide)]
  have e1 := containerIssues_map profile i (("securityContext", Yaml.null) :: rest) [] rfl
  have e2 := containerIssues_map profile i rest [] hsc2
  constructor
  · rw [e1, e2, hname]
  · rw [e1, hname]
    cases hpr : (profile == "restricted") with
    | true => rfl
    | false => rfl

/-- C10 witness: a named container with `securityContext: null` under the
restricted profile. -/
theorem claim_C10_witness :
    lookupY [("name", Yaml.str "c")] "securityContext" = none ∧
    (containerIssues "restricted" 0 (Yaml.map [("securityContext", Yaml.null), ("name", Yaml.str "c")]) =
       containerIssues "restricted" 0 (Yaml.map [("name", Yaml.str "c")]) ∧
     containerIssues "restricted" 0 (Yaml.map [("securityContext", Yaml.null), ("name", Yaml.str "c")]) =
       Except.ok (apeIssue (basePath 0) (nameOf 0 [("name", Yaml.str "c")]) ::
         (if ("restricted" : String) == "restricted" then
            [nonRootIssue (basePath 0) (nameOf 0 [("name", Yaml.str "c")])]
          else []))) :=
  ⟨rfl, claim_C10_null_securityContext "restricted" 0 [("name", Yaml.str "c")] rfl⟩

/-! ## Count and filter helpers for single-issue rule parts -/

theorem countP_if_single (p : PyDict → Bool) (c : Prop) [Decidable c] (d : PyDict)
    (hd : p d = false) : List.countP p (if c then [d] else []) = 0 := by
  split
  · simp [List.countP_cons, hd]
  · rfl

theorem countP_if_if_single (p : PyDict → Bool) (c1 c2 : Prop) [Decidable c1] [Decidable c2]
    (d : PyDict) (hd : p d = false) :
    List.countP p (if c1 then (if c2 then [d] else []) else []) = 0 := by
  split
  · exact countP_if_single p c2 d hd
  · rfl

theorem filter_if_single_none (p : PyDict → Bool) (c : Prop) [Decidable c] (d : PyDict)
    (hd : p d = false) : List.filter p (if c then [d] else []) = [] := by
  split
  · simp [List.filter_cons, hd]
  · rfl

theorem filter_if_if_single_none (p : PyDict → Bool) (c1 c2 : Prop) [Decidable c1] [Decidable c2]
    (d : PyDict) (hd : p d = false) :
    List.filter p (if c1 then (if c2 then [d] else []) else []) = [] := by
  split
  · exact filter_if_single_none p c2 d hd
  · rfl

/-! ## Claim C5 -/

/-- C5: for every container and both profiles, when
`securityContext.allowPrivilegeEscalation` is explicitly `false` no
`PSS-ALLOW_PRIV_ESC` issue is emitted for the container; when it is
absent or explicitly `true`, exactly one error issue with that id is
emitted, at `spec.containers[<i>].securityContext.allowPrivilegeEscalation`. -/
theorem claim_C5_allowPrivilegeEscalation (profile : String) (i : Nat)
    (ckvs sckvs : List (String × Yaml)) (is : List PyDict)
    (hsc : pyOr (lookupD ckvs "securityContext" Yaml.null) (Yaml.map []) = Yaml.map sckvs)
    (his : containerIssues profile i (Yaml.map ckvs) = Except.ok is) :
    (lookupY sckvs "allowPrivilegeEscalation" = some (Yaml.bool false) →
      is.countP apeKeep = 0) ∧
    ((lookupY sckvs "allowPrivilegeEscalation" = none ∨
      lookupY sckvs "allowPrivilegeEscalation" = some (Yaml.bool true)) →
      is.countP apeKeep = 1 ∧
      is.filter apeKeep = [apeIssue (basePath i) (nameOf i ckvs)] ∧
      dget (apeIssue (basePath i) (nameOf i ckvs)) "path" =
        some (Yaml.str ("spec.containers[" ++ toString i ++ "].securityContext.allowPrivilegeEscalation")) ∧
      dget (apeIssue (basePath i) (nameOf i ckvs)) "level" = some (Yaml.str "error")) := by
  rw [containerIssues_map profile i ckvs sckvs hsc] at his
  cases haddv : pyGet (pyOr (lookupD sckvs "capabilities" Yaml.null) (Yaml.map [])) "add" Yaml.null with
  | error e => rw [haddv, exceptBind_err] at his; cases his
  | ok addv =>
    rw [haddv, exceptBind_ok] at his
    cases hiter : pyIter (pyOr addv (Yaml.seq [])) with
    | error e => rw [hiter, exceptBind_err] at his; cases his
    | ok capsList =>
      rw [hiter, exceptBind_ok] at his
      have hisv : is = _ := (Except.ok.injEq _ _).mp his.symm
      constructor
      · intro hv
        have hfa : (lookupD sckvs "allowPrivilegeEscalation" (Yaml.bool true)).truthy = false := by
          unfold lookupD
          rw [hv]
          rfl
        rw [hisv, hfa]
        simp [List.countP_append,
          countP_if_single apeKeep _ _ (apeKeep_privilegedIssue _ _),
          countP_if_if_single apeKeep _ _ _ (apeKeep_nonRootIssue _ _),
          countP_if_single apeKeep _ _ (apeKeep_capsIssue _ _ _)]
      · intro hv
        have hta : (lookupD sckvs "allowPrivilegeEscalation" (Yaml.bool true)).truthy = true := by
          rcases hv with hv | hv <;> (unfold lookupD; rw [hv]; rfl)
        rw [hisv, if_pos hta]
        refine ⟨?_, ?_, ?_, rfl⟩
        · simp only [List.countP_append,
            countP_if_single apeKeep _ _ (apeKeep_privilegedIssue _ _),
            countP_if_if_single apeKeep _ _ _ (apeKeep_nonRootIssue _ _),
            countP_if_single apeKeep _ _ (apeKeep_capsIssue _ _ _), List.countP_nil,
            List.countP_cons, apeKeep_apeIssue]
          rfl
        · simp only [List.filter_append,
            filter_if_single_none apeKeep _ _ (apeKeep_privilegedIssue _ _),
            filter_if_if_single_none apeKeep _ _ _ (apeKeep_nonRootIssue _ _),
            filter_if_single_none apeKeep _ _ (apeKeep_capsIssue _ _ _), List.filter_nil,
            List.filter_cons, apeKeep_apeIssue]
          rfl
        · show dget (apeIssue (basePath i) (nameOf i ckvs)) "path" = _
          rw [show dget (apeIssue (basePath i) (nameOf i ckvs)) "path" =
            some (Yaml.str (basePath i ++ ".allowPrivilegeEscalation")) from rfl]
          rw [basePath, String.append_assoc, String.append_assoc]
          rfl

/-- C5 witness: a container with no `securityContext` (so the field is
absent) under baseline emits exactly the one escalation issue. -/
theorem claim_C5_witness :
    pyOr (lookupD [("name", Yaml.str "c")] "securityContext" Yaml.null) (Yaml.map []) =
      Yaml.map [] ∧
    containerIssues "baseline" 0 (Yaml.map [("name", Yaml.str "c")]) =
      Except.ok [apeIssue (basePath 0) (nameOf 0 [("name", Yaml.str "c")])] ∧
    ((lookupY ([] : List (String × Yaml)) "allowPrivilegeEscalation" = some (Yaml.bool false) →
        List.countP apeKeep [apeIssue (basePath 0) (nameOf 0 [("name", Yaml.str "c")])] = 0) ∧
     ((lookupY ([] : List (String × Yaml)) "allowPrivilegeEscalation" = none ∨
       lookupY ([] : List (String × Yaml)) "allowPrivilegeEscalation" = some (Yaml.bool true)) →
        List.countP apeKeep [apeIssue (basePath 0) (nameOf 0 [("name", Yaml.str "c")])] = 1 ∧
        List.filter apeKeep [apeIssue (basePath 0) (nameOf 0 [("name", Yaml.str "c")])] =
          [apeIssue (basePath 0) (nameOf 0 [("name", Yaml.str "c")])] ∧
        dget (apeIssue (basePath 0) (nameOf 0 [("name", Yaml.str "c")])) "path" =
          some (Yaml.str ("spec.containers[" ++ toString 0 ++ "].securityContext.allowPrivilegeEscalation")) ∧
        dget (apeIssue (basePath 0) (nameOf 0 [("name", Yaml.str "c")])) "level" =
          some (Yaml.str "error"))) :=
  ⟨rfl, rfl,
    claim_C5_allowPrivilegeEscalation "baseline" 0 [("name", Yaml.str "c")] []
      [apeIssue (basePath 0) (nameOf 0 [("name", Yaml.str "c")])] rfl rfl⟩

/-! ## Claim C6 -/

/-- C6: under the restricted profile, a container with `runAsNonRoot:
true` and no `runAsUser` gets no `PSS-RESTRICTED-RUN_AS_NON_ROOT` issue;
one with `runAsNonRoot` absent and `runAsUser: 0` gets exactly one, at
the container-level `securityContext` path. -/
theorem claim_C6_runAsNonRoot (i : Nat) (ckvs sckvs : List (String × Yaml)) (is : List PyDict)
    (hsc : pyOr (lookupD ckvs "securityContext" Yaml.null) (Yaml.map []) = Yaml.map sckvs)
    (his : containerIssues "restricted" i (Yaml.map ckvs) = Except.ok is) :
    (lookupY sckvs "runAsNonRoot" = some (Yaml.bool true) →
      is.countP nrKeep = 0) ∧
    (lookupY sckvs "runAsNonRoot" = none →
     lookupY sckvs "runAsUser" = some (Yaml.int 0) →
      is.countP nrKeep = 1 ∧
      is.filter nrKeep = [nonRootIssue (basePath i) (nameOf i ckvs)] ∧
      dget (nonRootIssue (basePath i) (nameOf i ckvs)) "path" =
        some (Yaml.str ("spec.containers[" ++ toString i ++ "].securityContext")) ∧
      dget (nonRootIssue (basePath i) (nameOf i ckvs)) "level" = some (Yaml.str "error")) := by
  rw [containerIssues_map "restricted" i ckvs sckvs hsc] at his
  cases haddv : pyGet (pyOr (lookupD sckvs "capabilities" Yaml.null) (Yaml.map [])) "add" Yaml.null with
  | error e => rw [haddv, exceptBind_err] at his; cases his
  | ok addv =>
    rw [haddv, exceptBind_ok] at his
    cases hiter : pyIter (pyOr addv (Yaml.seq [])) with
    | error e => rw [hiter, exceptBind_err] at his; cases his
    | ok capsList =>
      rw [hiter, exceptBind_ok] at his
      have hisv : is = _ := (Except.ok.injEq _ _).mp his.symm
      constructor
      · intro hrnr
        have hcond : (!isTrueLiteral (lookupD sckvs "runAsNonRoot" Yaml.null) &&
            pyInNoneZero (lookupD sckvs "runAsUser" Yaml.null)) = false := by
          unfold lookupD
          rw [hrnr]
          rfl
        rw [hisv, hcond]
        simp [List.countP_append,
          countP_if_single nrKeep _ _ (nrKeep_privilegedIssue _ _),
          countP_if_single nrKeep _ _ (nrKeep_apeIssue _ _),
          countP_if_single nrKeep _ _ (nrKeep_capsIssue _ _ _)]
      · intro hrnr hrau
        have hcond : (!isTrueLiteral (lookupD sckvs "runAsNonRoot" Yaml.null) &&
            pyInNoneZero (lookupD sckvs "runAsUser" Yaml.null)) = true := by
          unfold lookupD
          rw [hrnr, hrau]
          rfl
        rw [hisv, hcond]
        refine ⟨?_, ?_, rfl, rfl⟩
        · simp [List.countP_append, List.countP_cons,
            countP_if_single nrKeep _ _ (nrKeep_privilegedIssue _ _),
            countP_if_single nrKeep _ _ (nrKeep_apeIssue _ _),
            countP_if_single nrKeep _ _ (nrKeep_capsIssue _ _ _), nrKeep_nonRootIssue]
        · simp [List.filter_append, List.filter_cons,
            filter_if_single_none nrKeep _ _ (nrKeep_privilegedIssue _ _),
            filter_if_single_none nrKeep _ _ (nrKeep_apeIssue _ _),
            filter_if_single_none nrKeep _ _ (nrKeep_capsIssue _ _ _), nrKeep_nonRootIssue]

/-- C6 witness: `runAsNonRoot` absent with `runAsUser: 0` under
restricted yields the single non-root issue at the securityContext path. -/
theorem claim_C6_witness :
    pyOr (lookupD [("securityContext", Yaml.map [("runAsUser", Yaml.int 0)])]
        "securityContext" Yaml.null) (Yaml.map []) =
      Yaml.map [("runAsUser", Yaml.int 0)] ∧
    containerIssues "restricted" 0
        (Yaml.map [("securityContext", Yaml.map [("runAsUser", Yaml.int 0)])]) =
      Except.ok [apeIssue (basePath 0) (nameOf 0 [("securityContext", Yaml.map [("runAsUser", Yaml.int 0)])]),
        nonRootIssue (basePath 0) (nameOf 0 [("securityContext", Yaml.map [("runAsUser", Yaml.int 0)])])] ∧
    ((lookupY [("runAsUser", Yaml.int 0)] "runAsNonRoot" = some (Yaml.bool true) →
        List.countP nrKeep
          [apeIssue (basePath 0) (nameOf 0 [("securityContext", Yaml.map [("runAsUser", Yaml.int 0)])]),
           nonRootIssue (basePath 0) (nameOf 0 [("securityContext", Yaml.map [("runAsUser", Yaml.int 0)])])] = 0) ∧
     (lookupY [("runAsUser", Yaml.int 0)] "runAsNonRoot" = none →
      lookupY [("runAsUser", Yaml.int 0)] "runAsUser" = some (Yaml.int 0) →
        List.countP nrKeep
          [apeIssue (basePath 0) (nameOf 0 [("securityContext", Yaml.map [("runAsUser", Yaml.int 0)])]),
           nonRootIssue (basePath 0) (nameOf 0 [("securityContext", Yaml.map [("runAsUser", Yaml.int 0)])])] = 1 ∧
        List.filter nrKeep
          [apeIssue (basePath 0) (nameOf 0 [("securityContext", Yaml.map [("runAsUser", Yaml.int 0)])]),
           nonRootIssue (basePath 0) (nameOf 0 [("securityContext", Yaml.map [("runAsUser", Yaml.int 0)])])] =
          [nonRootIssue (basePath 0) (nameOf 0 [("securityContext", Yaml.map [("runAsUser", Yaml.int 0)])])] ∧
        dget (nonRootIssue (basePath 0) (nameOf 0 [("securityContext", Yaml.map [("runAsUser", Yaml.int 0)])])) "path" =
          some (Yaml.str ("spec.containers[" ++ toString 0 ++ "].securityContext")) ∧
        dget (nonRootIssue (basePath 0) (nameOf 0 [("securityContext", Yaml.map [("runAsUser", Yaml.int 0)])])) "level" =
          some (Yaml.str "error"))) :=
  ⟨rfl, rfl,
    claim_C6_runAsNonRoot 0 [("securityContext", Yaml.map [("runAsUser", Yaml.int 0)])]
      [("runAsUser", Yaml.int 0)]
      [apeIssue (basePath 0) (nameOf 0 [("securityContext", Yaml.map [("runAsUser", Yaml.int 0)])]),
       nonRootIssue (basePath 0) (nameOf 0 [("securityContext", Yaml.map [("runAsUser", Yaml.int 0)])])]
      rfl rfl⟩

/-! ## Claim C7 -/

theorem truthy_of_lookupY (kvs : List (String × Yaml)) (k : String) (v : Yaml)
    (h : lookupY kvs k = some v) : (Yaml.map kvs).truthy = true := by
  cases kvs with
  | nil => simp [lookupY, List.find?] at h
  | cons a rest => rfl

/-- C7: under restricted, `capabilities.add: ["NET_BIND_SERVICE"]`
produces no `PSS-RESTRICTED-CAPS` issue, while `["SYS_ADMIN",
"NET_BIND_SERVICE"]` produces exactly one, at
`...securityContext.capabilities.add`, whose message lists only the
forbidden `SYS_ADMIN`. -/
theorem claim_C7_capabilities (i : Nat) (ckvs sckvs cmkvs : List (String × Yaml))
    (is : List PyDict)
    (hsc : pyOr (lookupD ckvs "securityContext" Yaml.null) (Yaml.map []) = Yaml.map sckvs)
    (hcaps : lookupY sckvs "capabilities" = some (Yaml.map cmkvs))
    (his : containerIssues "restricted" i (Yaml.map ckvs) = Except.ok is) :
    (lookupY cmkvs "add" = some (Yaml.seq [Yaml.str "NET_BIND_SERVICE"]) →
      is.countP capsKeep = 0) ∧
    (lookupY cmkvs "add" = some (Yaml.seq [Yaml.str "SYS_ADMIN", Yaml.str "NET_BIND_SERVICE"]) →
      is.countP capsKeep = 1 ∧
      is.filter capsKeep = [capsIssue (basePath i) (nameOf i ckvs) [Yaml.str "SYS_ADMIN"]] ∧
      dget (capsIssue (basePath i) (nameOf i ckvs) [Yaml.str "SYS_ADMIN"]) "path" =
        some (Yaml.str ("spec.containers[" ++ toString i ++ "].securityContext.capabilities.add")) ∧
      dget (capsIssue (basePath i) (nameOf i ckvs) [Yaml.str "SYS_ADMIN"]) "message" =
        some (Yaml.str ("Container " ++ pyStr (nameOf i ckvs) ++ " adds capabilities " ++
          ("[" ++ (squote ++ "SYS_ADMIN" ++ squote) ++ "]") ++
          " which violate restricted profile."))) := by
  rw [containerIssues_map "restricted" i ckvs sckvs hsc] at his
  constructor
  · intro hadd
    have e2 : pyOr (lookupD sckvs "capabilities" Yaml.null) (Yaml.map []) = Yaml.map cmkvs := by
      unfold lookupD
      rw [hcaps]
      show pyOr (Yaml.map cmkvs) (Yaml.map []) = Yaml.map cmkvs
      rw [pyOr, if_pos (truthy_of_lookupY cmkvs "add" _ hadd)]
    rw [e2, pyGet_map, exceptBind_ok] at his
    have e3 : lookupD cmkvs "add" Yaml.null = Yaml.seq [Yaml.str "NET_BIND_SERVICE"] := by
      unfold lookupD
      rw [hadd]
      rfl
    rw [e3] at his
    rw [show pyIter (pyOr (Yaml.seq [Yaml.str "NET_BIND_SERVICE"]) (Yaml.seq [])) =
      Except.ok [Yaml.str "NET_BIND_SERVICE"] from rfl, exceptBind_ok] at his
    have hisv : is = _ := (Except.ok.injEq _ _).mp his.symm
    rw [hisv]
    simp only [List.countP_append,
      countP_if_single capsKeep _ _ (capsKeep_privilegedIssue _ _),
      countP_if_single capsKeep _ _ (capsKeep_apeIssue _ _),
      countP_if_if_single capsKeep _ _ _ (capsKeep_nonRootIssue _ _)]
    rw [show List.filter (fun cap => !yamlEqStr cap "NET_BIND_SERVICE")
      [Yaml.str "NET_BIND_SERVICE"] = [] from rfl]
    rfl
  · intro hadd
    have e2 : pyOr (lookupD sckvs "capabilities" Yaml.null) (Yaml.map []) = Yaml.map cmkvs := by
      unfold lookupD
      rw [hcaps]
      show pyOr (Yaml.map cmkvs) (Yaml.map []) = Yaml.map cmkvs
      rw [pyOr, if_pos (truthy_of_lookupY cmkvs "add" _ hadd)]
    rw [e2, pyGet_map, exceptBind_ok] at his
    have e3 : lookupD cmkvs "add" Yaml.null =
        Yaml.seq [Yaml.str "SYS_ADMIN", Yaml.str "NET_BIND_SERVICE"] := by
      unfold lookupD
      rw [hadd]
      rfl
    rw [e3] at his
    rw [show pyIter (pyOr (Yaml.seq [Yaml.str "SYS_ADMIN", Yaml.str "NET_BIND_SERVICE"]) (Yaml.seq [])) =
      Except.ok [Yaml.str "SYS_ADMIN", Yaml.str "NET_BIND_SERVICE"] from rfl, exceptBind_ok] at his
    have hisv : is = _ := (Except.ok.injEq _ _).mp his.symm
    rw [hisv]
    rw [show List.filter (fun cap => !yamlEqStr cap "NET_BIND_SERVICE")
      [Yaml.str "SYS_ADMIN", Yaml.str "NET_BIND_SERVICE"] = [Yaml.str "SYS_ADMIN"] from rfl]
    refine ⟨?_, ?_, ?_, ?_⟩
    · simp only [List.countP_append,
        countP_if_single capsKeep _ _ (capsKeep_privilegedIssue _ _),
        countP_if_single capsKeep _ _ (capsKeep_apeIssue _ _),
        countP_if_if_single capsKeep _ _ _ (capsKeep_nonRootIssue _ _)]
      rfl
    · simp only [List.filter_append,
        filter_if_single_none capsKeep _ _ (capsKeep_privilegedIssue _ _),
        filter_if_single_none capsKeep _ _ (capsKeep_apeIssue _ _),
        filter_if_if_single_none capsKeep _ _ _ (capsKeep_nonRootIssue _ _)]
      rfl
    · rw [show dget (capsIssue (basePath i) (nameOf i ckvs) [Yaml.str "SYS_ADMIN"]) "path" =
        some (Yaml.str (basePath i ++ ".capabilities.add")) from rfl]
      rw [basePath, String.append_assoc, String.append_assoc]
      rfl
    · have hrepr : pyStr (Yaml.seq [Yaml.str "SYS_ADMIN"]) =
          "[" ++ (squote ++ "SYS_ADMIN" ++ squote) ++ "]" := by
        simp [pyStr, pyRepr, pyReprSeq]
      rw [show dget (capsIssue (basePath i) (nameOf i ckvs) [Yaml.str "SYS_ADMIN"]) "message" =
        some (Yaml.str ("Container " ++ pyStr (nameOf i ckvs) ++ " adds capabilities " ++
          pyStr (Yaml.seq [Yaml.str "SYS_ADMIN"]) ++ " which violate restricted profile.")) from rfl,
        hrepr]

/-- Concrete capabilities map for the C7 witness. -/
def c7cm : List (String × Yaml) :=
  [("add", Yaml.seq [Yaml.str "SYS_ADMIN", Yaml.str "NET_BIND_SERVICE"])]

/-- Concrete securityContext for the C7 witness. -/
def c7sc : List (String × Yaml) := [("capabilities", Yaml.map c7cm)]

/-- Concrete container for the C7 witness. -/
def c7ckvs : List (String × Yaml) := [("name", Yaml.str "c"), ("securityContext", Yaml.map c7sc)]

/-- The issues the C7 witness container produces under restricted. -/
def c7is : List PyDict :=
  [apeIssue (basePath 0) (nameOf 0 c7ckvs),
   nonRootIssue (basePath 0) (nameOf 0 c7ckvs),
   capsIssue (basePath 0) (nameOf 0 c7ckvs) [Yaml.str "SYS_ADMIN"]]

/-- C7 witness: `capabilities.add: ["SYS_ADMIN","NET_BIND_SERVICE"]`
under restricted yields exactly one capability issue naming only
`SYS_ADMIN`. -/
theorem claim_C7_witness :
    pyOr (lookupD c7ckvs "securityContext" Yaml.null) (Yaml.map []) = Yaml.map c7sc ∧
    lookupY c7sc "capabilities" = some (Yaml.map c7cm) ∧
    containerIssues "restricted" 0 (Yaml.map c7ckvs) = Except.ok c7is ∧
    ((lookupY c7cm "add" = some (Yaml.seq [Yaml.str "NET_BIND_SERVICE"]) →
        c7is.countP capsKeep = 0) ∧
     (lookupY c7cm "add" = some (Yaml.seq [Yaml.str "SYS_ADMIN", Yaml.str "NET_BIND_SERVICE"]) →
        c7is.countP capsKeep = 1 ∧
        c7is.filter capsKeep = [capsIssue (basePath 0) (nameOf 0 c7ckvs) [Yaml.str "SYS_ADMIN"]] ∧
        dget (capsIssue (basePath 0) (nameOf 0 c7ckvs) [Yaml.str "SYS_ADMIN"]) "path" =
          some (Yaml.str ("spec.containers[" ++ toString 0 ++ "].securityContext.capabilities.add")) ∧
        dget (capsIssue (basePath 0) (nameOf 0 c7ckvs) [Yaml.str "SYS_ADMIN"]) "message" =
          some (Yaml.str ("Container " ++ pyStr (nameOf 0 c7ckvs) ++ " adds capabilities " ++
            ("[" ++ (squote ++ "SYS_ADMIN" ++ squote) ++ "]") ++
            " which violate restricted profile.")))) :=
  ⟨rfl, rfl, rfl, claim_C7_capabilities 0 c7ckvs c7sc c7cm c7is rfl rfl rfl⟩

/-! ## Claim C4 -/

/-- A Pod document with full identity metadata and one violating
container. -/
def c4doc : Yaml :=
  Yaml.map [("kind", Yaml.str "Pod"),
            ("metadata", Yaml.map [("name", Yaml.str "web"), ("namespace", Yaml.str "prod")]),
            ("spec", Yaml.map [("containers", Yaml.seq [Yaml.map [("name", Yaml.str "c1")]])])]

/-- The single stamped issue the analyzer produces for `c4doc`. -/
def c4issue : PyDict :=
  [("id", Yaml.str "PSS-ALLOW_PRIV_ESC"),
   ("level", Yaml.str "error"),
   ("path", Yaml.str "spec.containers[0].securityContext.allowPrivilegeEscalation"),
   ("message", Yaml.str "Container c1 allows privilege escalation."),
   ("recommendedPatch", Yaml.str "spec.containers[0].securityContext:\n  allowPrivilegeEscalation: false\n"),
   ("resourceKind", Yaml.str "Pod"),
   ("resourceName", Yaml.str "web"),
   ("namespace", Yaml.str "prod")]

/-- C4 is false as stated: the third stamped key is `namespace`, not
`resourceNamespace` — on a document with `metadata.namespace: prod`, the
produced issue has no `resourceNamespace` field at all, and the namespace
value sits under the key `namespace`. -/
theorem claim_C4_counterexample :
    analyzeDocs [c4doc] "baseline" =
      Except.ok { profile := "baseline", issueCount := 1, issues := [c4issue] } ∧
    dget c4issue "resourceNamespace" = none ∧
    dget c4issue "namespace" = some (Yaml.str "prod") :=
  ⟨rfl, rfl, rfl⟩

theorem stampIssue_eq_append (k n ns : Yaml) (d : PyDict)
    (h1 : dget d "resourceKind" = none) (h2 : dget d "resourceName" = none)
    (h3 : dget d "namespace" = none) :
    stampIssue k n ns d = d ++ [("resourceKind", k), ("resourceName", n), ("namespace", ns)] := by
  unfold stampIssue
  rw [dget_setdefault_absent d "resourceKind" k h1]
  have h2b : dget (d ++ [("resourceKind", k)]) "resourceName" = none := by
    rw [dget_append, h2]
    rfl
  rw [dget_setdefault_absent _ "resourceName" n h2b]
  have h3b : dget ((d ++ [("resourceKind", k)]) ++ [("resourceName", n)]) "namespace" = none := by
    rw [dget_append, dget_append, h3]
    rfl
  rw [dget_setdefault_absent _ "namespace" ns h3b]
  rw [List.append_assoc, List.append_assoc]
  rfl

theorem dget_stampIssue_all (k n ns : Yaml) (d : PyDict)
    (h1 : dget d "resourceKind" = none) (h2 : dget d "resourceName" = none)
    (h3 : dget d "namespace" = none) (h4 : dget d "resourceNamespace" = none) :
    dget (stampIssue k n ns d) "resourceKind" = some k ∧
    dget (stampIssue k n ns d) "resourceName" = some n ∧
    dget (stampIssue k n ns d) "namespace" = some ns ∧
    dget (stampIssue k n ns d) "resourceNamespace" = none := by
  rw [stampIssue_eq_append k n ns d h1 h2 h3]
  refine ⟨?_, ?_, ?_, ?_⟩
  · rw [dget_append, h1]
    rfl
  · rw [dget_append, h2]
    rfl
  · rw [dget_append, h3]
    rfl
  · rw [dget_append, h4]
    rfl

/-- Every issue `_check_pod_spec` builds lacks all four
stamping-related keys. -/
theorem check_stampKeysAbsent (profile : String) :
    ∀ ps is, _check_pod_spec ps profile = Except.ok is → is.all stampKeysAbsent = true :=
  check_all stampKeysAbsent profile
    (stampKeysAbsent_hostFieldIssue _ _) (stampKeysAbsent_hostFieldIssue _ _)
    (stampKeysAbsent_hostFieldIssue _ _) (fun i => stampKeysAbsent_hostPathIssue _ i)
    (fun bp nm => stampKeysAbsent_privilegedIssue bp nm)
    (fun bp nm => stampKeysAbsent_apeIssue bp nm)
    (fun bp nm _ => stampKeysAbsent_nonRootIssue bp nm)
    (fun bp nm f _ => stampKeysAbsent_capsIssue bp nm f)

/-- C4 (amended): the claim fails on the key name — the analyzer stamps
`resourceKind`, `resourceName` and `namespace` (not `resourceNamespace`),
each copied (possibly null) from the owning document's `kind`,
`metadata.name` and `metadata.namespace`, filling only fields the rule
has not set (no rule sets them). -/
theorem claim_C4_amended (doc : Yaml) (profile : String) (metav namev nsv kindv : Yaml)
    (is : List PyDict)
    (hmeta : pyGet doc "metadata" Yaml.null = Except.ok metav)
    (hname : pyGet (pyOr metav (Yaml.map [])) "name" Yaml.null = Except.ok namev)
    (hns : pyGet (pyOr metav (Yaml.map [])) "namespace" Yaml.null = Except.ok nsv)
    (hkind : pyGet doc "kind" Yaml.null = Except.ok kindv)
    (his : docIssues doc profile = Except.ok is) :
    ∀ d ∈ is, dget d "resourceKind" = some kindv ∧ dget d "resourceName" = some namev ∧
      dget d "namespace" = some nsv ∧ dget d "resourceNamespace" = none := by
  rw [docIssues, hmeta, exceptBind_ok, hname, exceptBind_ok, hns, exceptBind_ok, hkind,
    exceptBind_ok] at his
  cases hex : _extract_pod_spec doc with
  | error e => rw [hex, exceptBind_err] at his; cases his
  | ok ps =>
    rw [hex, exceptBind_ok] at his
    cases hch : _check_pod_spec ps profile with
    | error e => rw [hch, exceptBind_err] at his; cases his
    | ok is0 =>
      rw [hch, exceptBind_ok] at his
      have hisv : is = is0.map (stampIssue kindv namev nsv) := (Except.ok.injEq _ _).mp his.symm
      have habs := check_stampKeysAbsent profile ps is0 hch
      rw [List.all_eq_true] at habs
      rw [hisv]
      intro d hd
      rw [List.mem_map] at hd
      obtain ⟨d0, hd0, hdd⟩ := hd
      have habs0 := habs d0 hd0
      rw [stampKeysAbsent, Bool.and_eq_true, Bool.and_eq_true, Bool.and_eq_true] at habs0
      obtain ⟨⟨⟨a1, a2⟩, a3⟩, a4⟩ := habs0
      rw [← hdd]
      exact dget_stampIssue_all kindv namev nsv d0
        (Option.isNone_iff_eq_none.mp a1) (Option.isNone_iff_eq_none.mp a2)
        (Option.isNone_iff_eq_none.mp a3) (Option.isNone_iff_eq_none.mp a4)

/-- C4 witness: the concrete Pod document with name and namespace
metadata; its one issue carries the three stamped keys. -/
theorem claim_C4_amended_witness :
    docIssues c4doc "baseline" = Except.ok [c4issue] ∧
    (∀ d ∈ [c4issue], dget d "resourceKind" = some (Yaml.str "Pod") ∧
      dget d "resourceName" = some (Yaml.str "web") ∧
      dget d "namespace" = some (Yaml.str "prod") ∧
      dget d "resourceNamespace" = none) :=
  ⟨rfl,
    claim_C4_amended c4doc "baseline"
      (Yaml.map [("name", Yaml.str "web"), ("namespace", Yaml.str "prod")])
      (Yaml.str "web") (Yaml.str "prod") (Yaml.str "Pod") [c4issue] rfl rfl rfl rfl rfl⟩

/-! ## Claim C9 -/

/-- Drop the `resourceKind` and `resourceName` entries of an issue. -/
def eraseKN (d : PyDict) : PyDict :=
  d.filter (fun kv => !(kv.1 == "resourceKind") && !(kv.1 == "resourceName"))

/-- Apply the modulo-`resourceKind`/`resourceName` view to an analysis
outcome. -/
def scrub : Except PyErr AnalysisResult → Except PyErr AnalysisResult
  | Except.ok r => Except.ok { r with issues := r.issues.map eraseKN }
  | Except.error e => Except.error e

theorem eraseKN_stamp (k k2 n ns : Yaml) (d : PyDict)
    (h1 : dget d "resourceKind" = none) (h2 : dget d "resourceName" = none)
    (h3 : dget d "namespace" = none) :
    eraseKN (stampIssue k n ns d) = eraseKN (stampIssue k2 n ns d) := by
  rw [stampIssue_eq_append k n ns d h1 h2 h3, stampIssue_eq_append k2 n ns d h1 h2 h3]
  unfold eraseKN
  rw [List.filter_append, List.filter_append]
  rfl

/-- A Deployment document wrapping the PodSpec `p`. -/
def dDep (p : List (String × Yaml)) : Yaml :=
  Yaml.map [("kind", Yaml.str "Deployment"),
            ("spec", Yaml.map [("template", Yaml.map [("spec", Yaml.map p)])])]

/-- A bare Pod document with the PodSpec `p`. -/
def dPod (p : List (String × Yaml)) : Yaml :=
  Yaml.map [("kind", Yaml.str "Pod"), ("spec", Yaml.map p)]

theorem docsLoop_single (profile : String) (d : Yaml) :
    docsLoop profile [d] = (do
      let is1 ← docIssues d profile
      pure (is1 ++ [])) := by
  rw [docsLoop]
  cases h : docIssues d profile with
  | error e => rw [exceptBind_err, exceptBind_err]
  | ok is1 =>
    rw [exceptBind_ok, exceptBind_ok,
      show docsLoop profile ([] : List Yaml) = Except.ok [] from rfl, exceptBind_ok]

/-- C9: for every PodSpec `p` and every profile, analyzing a Deployment
whose `spec.template.spec` is `p` gives, modulo the `resourceKind` and
`resourceName` fields, the same outcome as analyzing a bare Pod whose
`spec` is `p` — the same issues in the same order (or the same error). -/
theorem claim_C9_deployment_pod_equiv (p : List (String × Yaml)) (profile : String) :
    scrub (analyzeDocs [dDep p] profile) = scrub (analyzeDocs [dPod p] profile) := by
  have h1 : docIssues (dDep p) profile = (do
      let issues ← _check_pod_spec (pyOr (Yaml.map p) (Yaml.map [])) profile
      pure (issues.map (stampIssue (Yaml.str "Deployment") Yaml.null Yaml.null))) := by
    rw [docIssues]
    rw [show pyGet (dDep p) "metadata" Yaml.null = Except.ok Yaml.null from rfl, exceptBind_ok]
    rw [show pyGet (pyOr Yaml.null (Yaml.map [])) "name" Yaml.null = Except.ok Yaml.null from rfl,
      exceptBind_ok]
    rw [show pyGet (pyOr Yaml.null (Yaml.map [])) "namespace" Yaml.null = Except.ok Yaml.null from rfl,
      exceptBind_ok]
    rw [show pyGet (dDep p) "kind" Yaml.null = Except.ok (Yaml.str "Deployment") from rfl,
      exceptBind_ok]
    rw [show _extract_pod_spec (dDep p) = Except.ok (pyOr (Yaml.map p) (Yaml.map [])) from rfl,
      exceptBind_ok]
  have h2 : docIssues (dPod p) profile = (do
      let issues ← _check_pod_spec (pyOr (Yaml.map p) (Yaml.map [])) profile
      pure (issues.map (stampIssue (Yaml.str "Pod") Yaml.null Yaml.null))) := by
    rw [docIssues]
    rw [show pyGet (dPod p) "metadata" Yaml.null = Except.ok Yaml.null from rfl, exceptBind_ok]
    rw [show pyGet (pyOr Yaml.null (Yaml.map [])) "name" Yaml.null = Except.ok Yaml.null from rfl,
      exceptBind_ok]
    rw [show pyGet (pyOr Yaml.null (Yaml.map [])) "namespace" Yaml.null = Except.ok Yaml.null from rfl,
      exceptBind_ok]
    rw [show pyGet (dPod p) "kind" Yaml.null = Except.ok (Yaml.str "Pod") from rfl, exceptBind_ok]
    rw [show _extract_pod_spec (dPod p) = Except.ok (pyOr (Yaml.map p) (Yaml.map [])) from rfl,
      exceptBind_ok]
  rw [analyzeDocs, analyzeDocs,
    show ([dDep p].filter Yaml.truthy) = [dDep p] from rfl,
    show ([dPod p].filter Yaml.truthy) = [dPod p] from rfl,
    docsLoop_single, docsLoop_single, h1, h2]
  cases hch : _check_pod_spec (pyOr (Yaml.map p) (Yaml.map [])) profile with
  | error e => simp only [hch, exceptBind_err]
  | ok is0 =>
    simp only [hch, exceptBind_ok, exceptPure_bind]
    have habs := check_stampKeysAbsent profile (pyOr (Yaml.map p) (Yaml.map [])) is0 hch
    rw [List.all_eq_true] at habs
    have hmap : (is0.map (stampIssue (Yaml.str "Deployment") Yaml.null Yaml.null)).map eraseKN =
        (is0.map (stampIssue (Yaml.str "Pod") Yaml.null Yaml.null)).map eraseKN := by
      rw [List.map_map, List.map_map]
      apply List.map_congr_left
      intro d0 hd0
      have habs0 := habs d0 hd0
      rw [stampKeysAbsent, Bool.and_eq_true, Bool.and_eq_true, Bool.and_eq_true] at habs0
      obtain ⟨⟨⟨a1, a2⟩, a3⟩, a4⟩ := habs0
      exact eraseKN_stamp (Yaml.str "Deployment") (Yaml.str "Pod") Yaml.null Yaml.null d0
        (Option.isNone_iff_eq_none.mp a1) (Option.isNone_iff_eq_none.mp a2)
        (Option.isNone_iff_eq_none.mp a3)
    have hscrub : ∀ (n : Nat) (l : List PyDict),
        scrub (pure { profile := profile, issueCount := n, issues := l }) =
          Except.ok { profile := profile, issueCount := n, issues := l.map eraseKN } :=
      fun n l => rfl
    rw [hscrub, hscrub, List.append_nil, List.append_nil, List.length_map, List.length_map, hmap]
